import Mathlib

/-!
# ChannelWatch core — verification of the specification against the source

A shallow embedding, in Lean 4, of the parts of the ChannelWatch core
(`src/core/...`) that the frozen claims C1–C10 are about:

* the assoc-list model of Python `dict` (insertion order preserved, update
  in place, delete) used by every stateful component;
* `StreamTracker` (`core/alerts/common/stream_tracker.py`);
* `SessionManager` (`core/alerts/common/session_manager.py`) and
  `AlertFormatter.should_send_notification`
  (`core/alerts/common/alert_formatter.py`);
* the Channel-Watching detector (`core/alerts/channel_watching.py`) together
  with the parsing helpers it uses (`core/helpers/parsing.py`);
* the VOD-Watching detector (`core/alerts/vod_watching.py`) and
  `BaseAlert.process_event` (`core/alerts/base.py`);
* the completed-recording classification and emission of the
  Recording-Events detector (`core/alerts/recording_events.py`);
* `AlertManager.process_event` (`core/engine/alert_manager.py`) and
  `EventMonitor._process_event_line` (`core/engine/event_monitor.py`);
* the Disk-Space check (`core/alerts/disk_space.py`);
* the activity recorder (`core/helpers/activity_recorder.py`).

Wall-clock instants (`time.time()`) are modelled as natural numbers passed
explicitly to each operation.  A Python comparison `now - t < c` over reals
is rendered as `now < t + c` (equivalent for natural-number instants, and
also agreeing with the real comparison when `now < t`).  Network and file
effects are modelled as explicit inputs/outputs of the state-transition
functions; notification-provider results (`send` success) are inputs.
-/

namespace ChannelWatch

/-! ## Python `dict` as an association list

Python dicts preserve insertion order; assigning to an existing key keeps
its position, assigning a fresh key appends.  `alookup`, `ainsert`,
`aerase` model `d[k]`, `d[k] = v`, `del d[k]`. -/

def alookup {α : Type} : List (String × α) → String → Option α
  | [], _ => none
  | (k, v) :: rest, key => if k = key then some v else alookup rest key

def ainsert {α : Type} : List (String × α) → String → α → List (String × α)
  | [], key, v => [(key, v)]
  | (k, w) :: rest, key, v =>
      if k = key then (k, v) :: rest else (k, w) :: ainsert rest key v

def aerase {α : Type} : List (String × α) → String → List (String × α)
  | [], _ => []
  | (k, v) :: rest, key =>
      if k = key then rest else (k, v) :: aerase rest key

def akeys {α : Type} (l : List (String × α)) : List String := l.map Prod.fst

def amem {α : Type} (l : List (String × α)) (key : String) : Bool :=
  (alookup l key).isSome

theorem alookup_ainsert_self {α : Type} (l : List (String × α)) (k : String) (v : α) :
    alookup (ainsert l k v) k = some v := by
  induction l with
  | nil => simp [ainsert, alookup]
  | cons hd tl ih =>
      obtain ⟨k', v'⟩ := hd
      by_cases h : k' = k <;> simp [ainsert, alookup, h, ih]

theorem alookup_ainsert_ne {α : Type} (l : List (String × α)) (k k' : String) (v : α)
    (h : k ≠ k') : alookup (ainsert l k v) k' = alookup l k' := by
  induction l with
  | nil => simp [ainsert, alookup, h]
  | cons hd tl ih =>
      obtain ⟨k₀, v₀⟩ := hd
      by_cases h₀ : k₀ = k
      · subst h₀; simp [ainsert, alookup, h]
      · simp only [ainsert, if_neg h₀]
        by_cases h₁ : k₀ = k' <;> simp [alookup, h₁, ih]

theorem alookup_eq_none_of_not_mem_akeys {α : Type} {l : List (String × α)} {k : String}
    (h : k ∉ akeys l) : alookup l k = none := by
  induction l with
  | nil => rfl
  | cons hd tl ih =>
      obtain ⟨k₀, v₀⟩ := hd
      simp only [akeys, List.map_cons, List.mem_cons, not_or] at h
      have hne : k₀ ≠ k := fun he => h.1 he.symm
      simp only [alookup, if_neg hne]
      exact ih h.2

theorem alookup_aerase_self {α : Type} (l : List (String × α)) (k : String)
    (hnd : (akeys l).Nodup) : alookup (aerase l k) k = none := by
  induction l with
  | nil => rfl
  | cons hd tl ih =>
      obtain ⟨k₀, v₀⟩ := hd
      simp only [akeys, List.map_cons, List.nodup_cons] at hnd
      by_cases h₀ : k₀ = k
      · subst h₀
        simp only [aerase, if_pos rfl]
        exact alookup_eq_none_of_not_mem_akeys hnd.1
      · simp only [aerase, if_neg h₀, alookup, if_neg h₀]
        exact ih hnd.2

theorem alookup_aerase_ne {α : Type} (l : List (String × α)) (k k' : String)
    (h : k ≠ k') : alookup (aerase l k) k' = alookup l k' := by
  induction l with
  | nil => rfl
  | cons hd tl ih =>
      obtain ⟨k₀, v₀⟩ := hd
      by_cases h₀ : k₀ = k
      · subst h₀; simp [aerase, alookup, h]
      · by_cases h₁ : k₀ = k'
        · subst h₁; simp [aerase, alookup, h₀]
        · simp [aerase, alookup, h₀, h₁, ih]

theorem aerase_ainsert_of_not_mem {α : Type} (l : List (String × α)) (k : String) (v : α)
    (h : amem l k = false) : aerase (ainsert l k v) k = l := by
  induction l with
  | nil => simp [ainsert, aerase]
  | cons hd tl ih =>
      obtain ⟨k₀, v₀⟩ := hd
      by_cases h₀ : k₀ = k
      · simp [amem, alookup, h₀] at h
      · simp only [amem, alookup, if_neg h₀] at h
        simp [ainsert, aerase, h₀, ih h]

theorem akeys_ainsert_of_mem {α : Type} (l : List (String × α)) (k : String) (v : α)
    (h : amem l k = true) : akeys (ainsert l k v) = akeys l := by
  induction l with
  | nil => simp [amem, alookup] at h
  | cons hd tl ih =>
      obtain ⟨k₀, v₀⟩ := hd
      by_cases h₀ : k₀ = k
      · simp [ainsert, akeys, h₀]
      · simp only [amem, alookup, if_neg h₀] at h
        have ih' := ih h
        simp only [akeys, List.map_cons] at ih' ⊢
        simp [ainsert, h₀, ih']

theorem akeys_ainsert_of_not_mem {α : Type} (l : List (String × α)) (k : String) (v : α)
    (h : amem l k = false) : akeys (ainsert l k v) = akeys l ++ [k] := by
  induction l with
  | nil => simp [ainsert, akeys]
  | cons hd tl ih =>
      obtain ⟨k₀, v₀⟩ := hd
      by_cases h₀ : k₀ = k
      · simp [amem, alookup, h₀] at h
      · simp only [amem, alookup, if_neg h₀] at h
        have ih' := ih h
        simp only [akeys, List.map_cons] at ih' ⊢
        simp [ainsert, h₀, ih']

theorem not_mem_akeys_of_amem_false {α : Type} {l : List (String × α)} {k : String}
    (h : amem l k = false) : k ∉ akeys l := by
  induction l with
  | nil => simp [akeys]
  | cons hd tl ih =>
      obtain ⟨k₀, v₀⟩ := hd
      by_cases h₀ : k₀ = k
      · simp [amem, alookup, h₀] at h
      · simp only [amem, alookup, if_neg h₀] at h
        simp only [akeys, List.map_cons, List.mem_cons, not_or]
        exact ⟨fun he => h₀ he.symm, ih h⟩

theorem nodup_akeys_ainsert {α : Type} (l : List (String × α)) (k : String) (v : α)
    (hnd : (akeys l).Nodup) : (akeys (ainsert l k v)).Nodup := by
  cases hm : amem l k
  · rw [akeys_ainsert_of_not_mem l k v hm]
    refine List.Nodup.append hnd (List.nodup_singleton k) ?_
    intro a ha hb
    simp only [List.mem_singleton] at hb
    subst hb
    exact not_mem_akeys_of_amem_false hm ha
  · rw [akeys_ainsert_of_mem l k v hm]; exact hnd

theorem akeys_aerase_sublist {α : Type} (l : List (String × α)) (k : String) :
    (akeys (aerase l k)).Sublist (akeys l) := by
  induction l with
  | nil => simp [aerase, akeys]
  | cons hd tl ih =>
      obtain ⟨k₀, v₀⟩ := hd
      by_cases h₀ : k₀ = k
      · simp only [aerase, if_pos h₀, akeys, List.map_cons]
        exact List.sublist_cons_of_sublist _ (List.Sublist.refl _)
      · simp only [aerase, if_neg h₀, akeys, List.map_cons]
        exact List.Sublist.cons₂ _ ih

theorem nodup_akeys_aerase {α : Type} (l : List (String × α)) (k : String)
    (hnd : (akeys l).Nodup) : (akeys (aerase l k)).Nodup :=
  (akeys_aerase_sublist l k).nodup hnd

/-! ## Python string primitives

All string computation is done on `List Char` with structural recursion (a
fuel argument where needed), so that concrete evaluations reduce in the
kernel.  Semantics follow Python `str` methods and the specific `re`
patterns used by the source, including leftmost search and greedy matching
with minimal backtracking. -/

/-- Python whitespace (`str.strip`, `\s`): space, tab, LF, CR, VT, FF. -/
def pyIsSpace (c : Char) : Bool :=
  c = ' ' || c = '\t' || c = '\n' || c = '\r' || c = '\x0b' || c = '\x0c'

/-- `haystack.startswith(prefix)` on char lists (arguments: haystack, prefix). -/
def startsWithL : List Char → List Char → Bool
  | _, [] => true
  | [], _ :: _ => false
  | c :: cs, d :: ds => c = d && startsWithL cs ds

/-- Python `needle in haystack` (arguments: haystack, needle). -/
def containsL : List Char → List Char → Bool
  | [], needle => needle.isEmpty
  | c :: cs, needle => startsWithL (c :: cs) needle || containsL cs needle

/-- Helper for `str.split(sep)`: fuel-driven left-to-right non-overlapping split. -/
def splitOnAuxL : Nat → List Char → List Char → List Char → List (List Char)
  | 0, _, acc, _ => [acc.reverse]
  | _ + 1, [], acc, _ => [acc.reverse]
  | fuel + 1, c :: cs, acc, sep =>
      if startsWithL (c :: cs) sep then
        acc.reverse :: splitOnAuxL fuel (List.drop (sep.length - 1) cs) [] sep
      else splitOnAuxL fuel cs (c :: acc) sep

/-- Python `s.split(sep)` for a nonempty separator. -/
def splitOnL (sep s : List Char) : List (List Char) :=
  splitOnAuxL (s.length + 1) s [] sep

/-- Python `s.strip()`. -/
def stripL (l : List Char) : List Char :=
  ((l.dropWhile pyIsSpace).reverse.dropWhile pyIsSpace).reverse

/-- Python `s.split()` (no separator): split on whitespace runs, dropping empties. -/
def splitWsL (l : List Char) : List (List Char) :=
  (splitOnL [' '] (l.map (fun c => if pyIsSpace c then ' ' else c))).filter
    (fun p => !p.isEmpty)

/-- Python `s.replace(old, new)` with `new = ""` for a single char. -/
def removeCharL (c : Char) (l : List Char) : List Char := l.filter (· ≠ c)

/-- Python `s.lower()` (ASCII fragment, which is all the source consumes). -/
def lowerL (l : List Char) : List Char := l.map Char.toLower

/-- Digit run to a number. -/
def natOfDigits (l : List Char) : Nat :=
  l.foldl (fun n c => n * 10 + (c.toNat - '0'.toNat)) 0

/-- Python `int(s)` restricted to nonempty all-digit strings; other inputs raise
`ValueError`, modelled as `none`.  (The source only ever applies `int` to digit
captures or inside `try` blocks that map the exception to a default.) -/
def intOfChars (l : List Char) : Option Nat :=
  if !l.isEmpty && l.all Char.isDigit then some (natOfDigits l) else none

-- String-level wrappers.
def pyContains (s sub : String) : Bool := containsL s.data sub.data
def pyStartsWith (s pre : String) : Bool := startsWithL s.data pre.data
def pyEndsWith (s suf : String) : Bool := startsWithL s.data.reverse suf.data.reverse
def pySplit (s sep : String) : List String := (splitOnL sep.data s.data).map String.mk
def pyStrip (s : String) : String := String.mk (stripL s.data)
def pyLower (s : String) : String := String.mk (lowerL s.data)

example : pySplit "a from b from c" " from " = ["a", "b", "c"] := by decide
example : pyStrip "  LivingRoom " = "LivingRoom" := by decide
example : pyContains "Watching ch7" "ch" = true := by decide

/-! ### Regex scanners

Each `re` pattern used by the source is embedded as a scanner with Python's
leftmost-search semantics.  Greedy quantifiers with the minimal backtracking
Python performs are reproduced where the pattern allows it (the character
classes involved never overlap in a way that needs deeper backtracking). -/

/-- Matcher for the tail `\s{wsMin,}([^excl]+)` at the current position; `excl`
never contains whitespace in any of the source's patterns, so Python's greedy
`\s+`/`\s*` backtracks at most one character into the capture. -/
def capAfterWs (wsMin : Nat) (excl : List Char) (l : List Char) : Option (List Char) :=
  let w := l.takeWhile pyIsSpace
  let r := l.drop w.length
  if w.length < wsMin then none
  else
    match r with
    | c :: _ =>
        if excl.contains c then
          if wsMin + 1 ≤ w.length then some [w.getLastD ' '] else none
        else some (r.takeWhile (fun d => !excl.contains d))
    | [] => if wsMin + 1 ≤ w.length then some [w.getLastD ' '] else none

/-- `re.search` for `pre\s{wsMin,}([^excl]+)`: leftmost position where the whole
pattern matches, returning the capture. -/
def searchPrefixCap (pre : List Char) (wsMin : Nat) (excl : List Char) :
    List Char → Option (List Char)
  | [] => none
  | c :: cs =>
      match (if startsWithL (c :: cs) pre then
              capAfterWs wsMin excl (List.drop pre.length (c :: cs))
             else none) with
      | some m => some m
      | none => searchPrefixCap pre wsMin excl cs

/-- Match `\d+\.\d+\.\d+\.\d+` at the current position (greedy digit runs). -/
def matchIpQuadAt (l : List Char) : Option (List Char) :=
  let d1 := l.takeWhile Char.isDigit
  if d1.isEmpty then none
  else
    match l.drop d1.length with
    | '.' :: r2 =>
        let d2 := r2.takeWhile Char.isDigit
        if d2.isEmpty then none
        else
          match r2.drop d2.length with
          | '.' :: r3 =>
              let d3 := r3.takeWhile Char.isDigit
              if d3.isEmpty then none
              else
                match r3.drop d3.length with
                | '.' :: r4 =>
                    let d4 := r4.takeWhile Char.isDigit
                    if d4.isEmpty then none
                    else some (d1 ++ '.' :: d2 ++ '.' :: d3 ++ '.' :: d4)
                | _ => none
          | _ => none
    | _ => none

/-- `re.search(r'\d+\.\d+\.\d+\.\d+', s)`. -/
def searchIpQuad : List Char → Option (List Char)
  | [] => none
  | c :: cs =>
      match matchIpQuadAt (c :: cs) with
      | some m => some m
      | none => searchIpQuad cs

/-- `re.match(r'^\d+\.\d+\.\d+\.\d+$', s)`: the quad must span the whole string. -/
def fullMatchIpQuad (l : List Char) : Bool :=
  match matchIpQuadAt l with
  | some m => m.length = l.length
  | none => false

/-- One dotted group of `ipaddress.ip_address` IPv4 parsing: decimal, ≤ 255, no
leading zero. -/
def validIpv4Group (g : List Char) : Bool :=
  !g.isEmpty && g.all Char.isDigit && (g.length = 1 || g.headD '0' ≠ '0') &&
    natOfDigits g ≤ 255

/-- `is_valid_ip_address` (`core/helpers/parsing.py` and
`core/alerts/vod_watching.py`): `ipaddress.ip_address(text)` succeeds.  The
embedding covers the IPv4 grammar; the strings this program feeds it are IPv4
literals or free-form device names, never IPv6 literals. -/
def is_valid_ip_address (s : String) : Bool :=
  if s = "" then false
  else
    let gs := splitOnL ['.'] s.data
    gs.length = 4 && gs.all validIpv4Group

example : is_valid_ip_address "192.168.1.100" = true := by decide
example : is_valid_ip_address "LivingRoom" = false := by decide
example : is_valid_ip_address "300.1.1.1" = false := by decide
example : is_valid_ip_address "01.1.1.1" = false := by decide

/-! ## Parsing helpers (`core/helpers/parsing.py`) -/

/-- Case-insensitive `startswith`, for `re.IGNORECASE` patterns. -/
def startsWithCIL (l pre : List Char) : Bool := startsWithL (lowerL l) (lowerL pre)

/-- Match `ch(?:annel)?\s*(\d+\.\d+|\d+)` (IGNORECASE) at the current position:
greedy optional `annel`, then the alternation tries the dotted form first. -/
def matchChanNumAt (l : List Char) : Option (List Char) :=
  if startsWithCIL l ['c', 'h'] then
    let tailNum (r : List Char) : Option (List Char) :=
      let r2 := r.dropWhile pyIsSpace
      let d1 := r2.takeWhile Char.isDigit
      if d1.isEmpty then none
      else
        match r2.drop d1.length with
        | '.' :: r4 =>
            let d2 := r4.takeWhile Char.isDigit
            if d2.isEmpty then some d1 else some (d1 ++ '.' :: d2)
        | _ => some d1
    let rest := l.drop 2
    match (if startsWithCIL rest ['a', 'n', 'n', 'e', 'l'] then tailNum (rest.drop 5)
           else none) with
    | some m => some m
    | none => tailNum rest
  else none

/-- Leftmost-search wrapper for `matchChanNumAt`. -/
def searchChanNum : List Char → Option (List Char)
  | [] => none
  | c :: cs =>
      match matchChanNumAt (c :: cs) with
      | some m => some m
      | none => searchChanNum cs

/-- `extract_channel_number` (`core/helpers/parsing.py`):
`re.search(r'ch(?:annel)?\s*(\d+\.\d+|\d+)', value, re.IGNORECASE)`. -/
def extract_channel_number (value : String) : Option String :=
  (searchChanNum value.data).map String.mk

/-- `extract_device_name` (`core/helpers/parsing.py`):
`re.search(r'from\s+([^:()]+)', value)`, strip, reject IP addresses. -/
def extract_device_name (value : String) : Option String :=
  match searchPrefixCap ['f', 'r', 'o', 'm'] 1 [':', '(', ')'] value.data with
  | some cap =>
      let potential_name := String.mk (stripL cap)
      if !is_valid_ip_address potential_name then some potential_name else none
  | none => none

/-- Match `\(([\d\.]+)\)` at the current position. -/
def matchParenDigitsAt (l : List Char) : Option (List Char) :=
  match l with
  | '(' :: rest =>
      let d := rest.takeWhile (fun c => c.isDigit || c = '.')
      if d.isEmpty then none
      else
        match rest.drop d.length with
        | ')' :: _ => some d
        | _ => none
  | _ => none

/-- Leftmost-search wrapper for `matchParenDigitsAt`. -/
def searchParenDigits : List Char → Option (List Char)
  | [] => none
  | c :: cs =>
      match matchParenDigitsAt (c :: cs) with
      | some m => some m
      | none => searchParenDigits cs

/-- `extract_ip_address` (`core/helpers/parsing.py`): parenthesised candidate
first, then the `from` capture, each validated with `is_valid_ip_address`. -/
def parsing.extract_ip_address (value : String) : Option String :=
  let fromParen :=
    match searchParenDigits value.data with
    | some cap =>
        let p := String.mk (stripL cap)
        if is_valid_ip_address p then some p else none
    | none => none
  match fromParen with
  | some p => some p
  | none =>
      match searchPrefixCap ['f', 'r', 'o', 'm'] 1 [':', '(', ')'] value.data with
      | some cap =>
          let p := String.mk (stripL cap)
          if is_valid_ip_address p then some p else none
      | none => none

/-- Match `(\d+[pi])` at the current position. -/
def matchResolutionAt (l : List Char) : Option (List Char) :=
  let d := l.takeWhile Char.isDigit
  if d.isEmpty then none
  else
    match l.drop d.length with
    | c :: _ => if c = 'p' || c = 'i' then some (d ++ [c]) else none
    | [] => none

/-- Leftmost-search wrapper for `matchResolutionAt`. -/
def searchResolution : List Char → Option (List Char)
  | [] => none
  | c :: cs =>
      match matchResolutionAt (c :: cs) with
      | some m => some m
      | none => searchResolution cs

/-- `extract_resolution` (`core/helpers/parsing.py`): `re.search(r'(\d+[pi])', value)`. -/
def extract_resolution (value : String) : Option String :=
  (searchResolution value.data).map String.mk

/-- Python `str.capitalize()` (ASCII fragment). -/
def pyCapitalize (s : String) : String :=
  match s.data with
  | [] => ""
  | c :: cs => String.mk (c.toUpper :: lowerL cs)

/-- `extract_source_from_session_id` (`core/helpers/parsing.py`). -/
def extract_source_from_session_id (session_id : String) : Option String :=
  let parts := pySplit session_id "-"
  if 3 ≤ parts.length && pyContains (parts.getD 1 "") "stream" then
    let source_type := parts.getD 2 ""
    if pyStartsWith source_type "M3U" then
      if 3 < parts.length then some (parts.getD 3 "") else some "M3U"
    else if pyStartsWith source_type "TVE" then
      if 3 < parts.length then
        some ("TVE (" ++ pyCapitalize (((pySplit (parts.getD 3 "") "_").getD 0 "")) ++ ")")
      else some "TVE"
    else if !source_type.data.isEmpty &&
        source_type.data.all (fun c => c.isDigit ||
          ('a' ≤ c.toLower && c.toLower ≤ 'f')) then
      some ("Tuner (" ++ source_type ++ ")")
    else some source_type
  else some "Unknown source"

example : extract_channel_number "Watching ch7 ABC from LivingRoom (192.168.1.10) 1080i" =
    some "7" := by decide
example : extract_channel_number "watching channel 13.1 now" = some "13.1" := by decide
example : extract_device_name "Watching ch7 ABC from LivingRoom (192.168.1.10) 1080i" =
    some "LivingRoom" := by decide
example : parsing.extract_ip_address
    "Watching ch7 ABC from LivingRoom (192.168.1.10) 1080i" = some "192.168.1.10" := by decide
example : extract_resolution "Watching ch7 ABC from LivingRoom (192.168.1.10) 1080i" =
    some "1080i" := by decide
example : extract_source_from_session_id "6-stream-M3U-Primary-abc" = some "Primary" := by
  decide

/-- Python truthiness of an `Optional[str]`: `None` and `""` are falsy. -/
def pyTruthyOpt : Option String → Bool
  | some s => s ≠ ""
  | none => false

/-! ## Stream Tracker (`core/alerts/common/stream_tracker.py`)

State: `active_streams : sessionId → {activity, device, last_seen}`,
`device_sessions : device → sessionId`, `last_count`, and the contents of
`/config/stream_count.txt` (writes are modelled as always succeeding). -/

structure StreamSession where
  activity : String
  device : String
  lastSeen : Nat
  deriving Repr, DecidableEq

structure TrackerState where
  activeStreams : List (String × StreamSession)
  deviceSessions : List (String × String)
  lastCount : Nat
  streamCountFile : Nat
  deriving Repr, DecidableEq

namespace StreamTracker

/-- `__init__`: empty maps and `_write_stream_count(0)`. -/
def init : TrackerState := ⟨[], [], 0, 0⟩

/-- `StreamTracker.extract_device_name`: `re.search(r"from\s+([^(:]+)", s)` then
`re.search(r"Device:\s*([^,]+)", s)`, each capture stripped. -/
def extract_device_name (activity : String) : Option String :=
  if activity = "" then none
  else
    match searchPrefixCap ['f', 'r', 'o', 'm'] 1 ['(', ':'] activity.data with
    | some cap => some (String.mk (stripL cap))
    | none =>
        match searchPrefixCap ['D', 'e', 'v', 'i', 'c', 'e', ':'] 0 [','] activity.data with
        | some cap => some (String.mk (stripL cap))
        | none => none

/-- The non-watching removal branch of `process_activity`. -/
def removalBranch (st : TrackerState) (sessionId : String) : TrackerState :=
  match alookup st.activeStreams sessionId with
  | some sess =>
      let ds :=
        if sess.device ≠ "" &&
            (match alookup st.deviceSessions sess.device with
             | some sid => sid = sessionId
             | none => false) then
          aerase st.deviceSessions sess.device
        else st.deviceSessions
      { st with activeStreams := aerase st.activeStreams sessionId, deviceSessions := ds }
  | none => st

/-- `"watching"`/`"recording"` plus `"ch"` token test on the lower-cased
activity string, from the body of `process_activity`. -/
def isWatchingActivity (activity : String) : Bool :=
  let activity_str := pyLower activity
  (pyContains activity_str "watching" || pyContains activity_str "recording") &&
    pyContains activity_str "ch"

/-- The map updates of `process_activity` (the section under the lock before
the count comparison). -/
def processMaps (st : TrackerState) (activity sessionId : String) (now : Nat) :
    TrackerState :=
  if isWatchingActivity activity && pyTruthyOpt (extract_device_name activity) then
    { st with
      activeStreams := ainsert st.activeStreams sessionId
        ⟨activity, (extract_device_name activity).getD "", now⟩,
      deviceSessions := ainsert st.deviceSessions
        ((extract_device_name activity).getD "") sessionId }
  else if !isWatchingActivity activity then removalBranch st sessionId
  else st

/-- `process_activity(activity_data, session_id)`: returns whether the
unique-device count changed, writing the file when it did. -/
def process_activity (st : TrackerState) (activity sessionId : String) (now : Nat) :
    Bool × TrackerState :=
  let old_count := st.deviceSessions.length
  let st1 := processMaps st activity sessionId now
  let new_count := st1.deviceSessions.length
  let count_changed := old_count != new_count
  let st2 :=
    if count_changed then
      { st1 with lastCount := new_count, streamCountFile := new_count }
    else st1
  (count_changed, st2)

/-- `get_stream_count`: `len(self.device_sessions)`. -/
def get_stream_count (st : TrackerState) : Nat := st.deviceSessions.length

/-- The stale entries of `cleanup_stale_sessions`: `now - last_seen > max_age`. -/
def staleOf (st : TrackerState) (now maxAge : Nat) : List (String × StreamSession) :=
  st.activeStreams.filter (fun p => maxAge + p.2.lastSeen < now)

/-- `cleanup_stale_sessions(max_age=300)`: drop sessions idle past `max_age`,
drop their still-pointing device mappings, rewrite the file when any session
was removed. -/
def cleanup_stale_sessions (st : TrackerState) (now : Nat) (maxAge : Nat := 300) :
    TrackerState :=
  let stale := staleOf st now maxAge
  let staleIds := stale.map Prod.fst
  let devicesToRemove := stale.filterMap (fun p =>
    if p.2.device ≠ "" then
      match alookup st.deviceSessions p.2.device with
      | some sid => if sid = p.1 then some p.2.device else none
      | none => none
    else none)
  let st1 := { st with
    activeStreams := staleIds.foldl aerase st.activeStreams,
    deviceSessions := devicesToRemove.foldl aerase st.deviceSessions }
  if 0 < staleIds.length then { st1 with streamCountFile := st1.deviceSessions.length }
  else st1

end StreamTracker

/-- The Stream-Tracker representation invariant: the shared file holds the
unique-device count, and the device map's keys are distinct. -/
def TrackerInv (st : TrackerState) : Prop :=
  st.streamCountFile = st.deviceSessions.length ∧ (akeys st.deviceSessions).Nodup

theorem foldl_aerase_nodup {α : Type} (ids : List String) (l : List (String × α))
    (hnd : (akeys l).Nodup) : (akeys (ids.foldl aerase l)).Nodup := by
  induction ids generalizing l with
  | nil => exact hnd
  | cons i is ih => exact ih _ (nodup_akeys_aerase l i hnd)

theorem trackerInv_init : TrackerInv StreamTracker.init := by
  constructor <;> simp [StreamTracker.init, akeys]

theorem nodup_processMaps (st : TrackerState) (activity sessionId : String) (now : Nat)
    (hnd : (akeys st.deviceSessions).Nodup) :
    (akeys (StreamTracker.processMaps st activity sessionId now).deviceSessions).Nodup := by
  unfold StreamTracker.processMaps
  split
  · exact nodup_akeys_ainsert _ _ _ hnd
  · split
    · unfold StreamTracker.removalBranch
      cases halk : alookup st.activeStreams sessionId with
      | none => exact hnd
      | some sess =>
          simp only
          split
          · exact nodup_akeys_aerase _ _ hnd
          · exact hnd
    · exact hnd

theorem processMaps_file (st : TrackerState) (activity sessionId : String) (now : Nat) :
    (StreamTracker.processMaps st activity sessionId now).streamCountFile =
      st.streamCountFile := by
  unfold StreamTracker.processMaps
  split
  · rfl
  · split
    · unfold StreamTracker.removalBranch
      cases alookup st.activeStreams sessionId with
      | none => rfl
      | some sess => rfl
    · rfl

theorem trackerInv_process_activity (st : TrackerState) (activity sessionId : String)
    (now : Nat) (h : TrackerInv st) :
    TrackerInv (StreamTracker.process_activity st activity sessionId now).2 := by
  obtain ⟨hfile, hnd⟩ := h
  have hnd1 := nodup_processMaps st activity sessionId now hnd
  unfold StreamTracker.process_activity
  by_cases hch : st.deviceSessions.length =
      (StreamTracker.processMaps st activity sessionId now).deviceSessions.length
  · simp only [hch, bne_self_eq_false, Bool.false_eq_true, if_false]
    exact ⟨by rw [processMaps_file, hfile, hch], hnd1⟩
  · have hb : (st.deviceSessions.length !=
        (StreamTracker.processMaps st activity sessionId now).deviceSessions.length) =
        true := by simpa using hch
    simp only [hb, if_true]
    exact ⟨rfl, hnd1⟩

theorem trackerInv_cleanup (st : TrackerState) (now maxAge : Nat) (h : TrackerInv st) :
    TrackerInv (StreamTracker.cleanup_stale_sessions st now maxAge) := by
  obtain ⟨hfile, hnd⟩ := h
  unfold StreamTracker.cleanup_stale_sessions
  by_cases hempty : StreamTracker.staleOf st now maxAge = []
  · simp only [hempty, List.map_nil, List.filterMap_nil, List.foldl_nil,
      List.length_nil, lt_irrefl, if_false]
    exact ⟨hfile, hnd⟩
  · have hlen : 0 < ((StreamTracker.staleOf st now maxAge).map Prod.fst).length := by
      simpa [List.length_pos] using hempty
    simp only [hlen, if_true]
    exact ⟨rfl, foldl_aerase_nodup _ _ hnd⟩

/-- C5.  After every Stream-Tracker operation the reported count is the number
of distinct devices in `device_sessions`, and `stream_count.txt` holds exactly
that count: the representation invariant holds initially and is preserved by
`process_activity` (for any activity value) and `cleanup_stale_sessions`, and
under it `get_stream_count` equals the distinct-device count and the file
contents. -/
theorem streamTracker_count_file_invariant :
    TrackerInv StreamTracker.init ∧
    (∀ st activity sessionId now, TrackerInv st →
      TrackerInv (StreamTracker.process_activity st activity sessionId now).2) ∧
    (∀ st now maxAge, TrackerInv st →
      TrackerInv (StreamTracker.cleanup_stale_sessions st now maxAge)) ∧
    (∀ st, TrackerInv st →
      StreamTracker.get_stream_count st = (akeys st.deviceSessions).dedup.length ∧
      st.streamCountFile = StreamTracker.get_stream_count st) :=
  ⟨trackerInv_init,
   trackerInv_process_activity,
   fun st now maxAge h => trackerInv_cleanup st now maxAge h,
   fun st h => ⟨by
      rw [StreamTracker.get_stream_count, List.dedup_eq_self.mpr h.2]
      simp [akeys], h.1⟩⟩

/-- Witness for C5 at a concrete input: one watching activity on a fresh
tracker establishes and preserves the invariant. -/
theorem streamTracker_count_file_invariant_witness :
    TrackerInv (StreamTracker.process_activity StreamTracker.init
      "Watching ch7 ABC from LivingRoom (192.168.1.10) 1080i" "sess-1" 100).2 :=
  streamTracker_count_file_invariant.2.1 StreamTracker.init
    "Watching ch7 ABC from LivingRoom (192.168.1.10) 1080i" "sess-1" 100
    streamTracker_count_file_invariant.1

/-! ## Session Manager (`core/alerts/common/session_manager.py`) and
`AlertFormatter.should_send_notification`
(`core/alerts/common/alert_formatter.py`)

Each detector owns one `SessionManager`; `active_sessions` stores
detector-specific dicts (the payload type is a parameter here),
`processing_events` and `notification_history` map keys to timestamps. -/

structure SMState (σ : Type) where
  activeSessions : List (String × σ)
  processingEvents : List (String × Nat)
  notificationHistory : List (String × Nat)
  deriving Repr

namespace SessionManager

def init {σ : Type} : SMState σ := ⟨[], [], []⟩

/-- `add_session(session_id, **session_data)`: the payload (with its refreshed
`timestamp` field, which the caller's payload type carries) replaces or appends. -/
def add_session {σ : Type} (st : SMState σ) (sessionId : String) (payload : σ) :
    SMState σ :=
  { st with activeSessions := ainsert st.activeSessions sessionId payload }

def get_session {σ : Type} (st : SMState σ) (sessionId : String) : Option σ :=
  alookup st.activeSessions sessionId

def has_session {σ : Type} (st : SMState σ) (sessionId : String) : Bool :=
  amem st.activeSessions sessionId

def remove_session {σ : Type} (st : SMState σ) (sessionId : String) : SMState σ :=
  { st with activeSessions := aerase st.activeSessions sessionId }

def mark_event_processing {σ : Type} (st : SMState σ) (eventId : String) (now : Nat) :
    SMState σ :=
  { st with processingEvents := ainsert st.processingEvents eventId now }

def is_event_processing {σ : Type} (st : SMState σ) (eventId : String) : Bool :=
  amem st.processingEvents eventId

def complete_event_processing {σ : Type} (st : SMState σ) (eventId : String) : SMState σ :=
  { st with processingEvents := aerase st.processingEvents eventId }

def record_notification {σ : Type} (st : SMState σ) (key : String) (now : Nat) :
    SMState σ :=
  { st with notificationHistory := ainsert st.notificationHistory key now }

/-- `was_notification_sent(key, within_seconds)`:
`(time.time() - timestamp) < within_seconds`. -/
def was_notification_sent {σ : Type} (st : SMState σ) (key : String)
    (withinSeconds : Nat) (now : Nat) : Bool :=
  match alookup st.notificationHistory key with
  | none => false
  | some ts => now < ts + withinSeconds

end SessionManager

/-- `AlertFormatter.should_send_notification(session_manager, key, cooldown)`. -/
def should_send_notification {σ : Type} (st : SMState σ) (key : String)
    (cooldownSeconds : Nat) (now : Nat) : Bool :=
  !SessionManager.was_notification_sent st key cooldownSeconds now

/-! ## The cooldown-separation argument shared by C4's two detectors

A detector step either emits one notification under some key at the step's
wall-clock time — after `should_send_notification` approved it against the
history and with `record_notification` stamping the key — or emits nothing
and leaves the history untouched.  Any such emitter keeps same-key emissions
at least `cooldown` seconds apart, whatever the inputs. -/

structure GatedEmitter (σ ι : Type) where
  step : σ → ι → σ
  time : ι → Nat
  emitKey : σ → ι → Option String
  hist : σ → String → Option Nat
  cooldown : Nat
  gate : ∀ s i k ts, emitKey s i = some k → hist s k = some ts →
    ts + cooldown ≤ time i
  step_hist : ∀ s i k, hist (step s i) k =
    (if emitKey s i = some k then some (time i) else hist s k)

namespace GatedEmitter

variable {σ ι : Type}

/-- The `(key, time)` emissions produced by running the emitter over inputs. -/
def runEmissions (G : GatedEmitter σ ι) (s : σ) : List ι → List (String × Nat)
  | [] => []
  | i :: is =>
      match G.emitKey s i with
      | some k => (k, G.time i) :: runEmissions G (G.step s i) is
      | none => runEmissions G (G.step s i) is

theorem hist_lower_bound (G : GatedEmitter σ ι) (l : List ι) :
    ∀ (s : σ) (k : String) (ts : Nat), G.hist s k = some ts →
      ∀ t, (k, t) ∈ G.runEmissions s l → ts + G.cooldown ≤ t := by
  induction l with
  | nil => intro s k ts _ t ht; simp [runEmissions] at ht
  | cons i is ih =>
      intro s k ts hts t ht
      have hstep := G.step_hist s i k
      cases hek : G.emitKey s i with
      | some k' =>
          simp only [runEmissions, hek] at ht
          rw [hek] at hstep
          rcases List.mem_cons.mp ht with he | htl
          · injection he with hk htime
            subst hk
            subst htime
            exact G.gate s i k ts hek hts
          · by_cases hkk : k' = k
            · subst hkk
              rw [if_pos rfl] at hstep
              have h1 : ts + G.cooldown ≤ G.time i := G.gate s i k' ts hek hts
              have h2 := ih (G.step s i) k' (G.time i) hstep t htl
              omega
            · rw [if_neg (fun h => hkk (Option.some.inj h))] at hstep
              exact ih (G.step s i) k ts (hstep.trans hts) t htl
      | none =>
          simp only [runEmissions, hek] at ht
          rw [hek] at hstep
          simp only [reduceCtorEq, if_false] at hstep
          exact ih (G.step s i) k ts (hstep.trans hts) t ht

/-- Same-key emissions are pairwise separated by at least the cooldown. -/
theorem emissions_separated (G : GatedEmitter σ ι) (l : List ι) (s : σ) :
    (G.runEmissions s l).Pairwise (fun a b => a.1 = b.1 → a.2 + G.cooldown ≤ b.2) := by
  induction l generalizing s with
  | nil => simp [runEmissions]
  | cons i is ih =>
      cases hek : G.emitKey s i with
      | some k =>
          simp only [runEmissions, hek]
          refine List.Pairwise.cons ?_ (ih (G.step s i))
          intro b hb hkey
          obtain ⟨bk, bt⟩ := b
          simp only at hkey
          subst hkey
          have hstep : G.hist (G.step s i) k = some (G.time i) := by
            rw [G.step_hist, if_pos hek]
          exact hist_lower_bound G is (G.step s i) k (G.time i) hstep bt hb
      | none =>
          simp only [runEmissions, hek]
          exact ih (G.step s i)

end GatedEmitter

/-! ## Channel-Watching detector (`core/alerts/channel_watching.py`)

Configuration and environment: cache lookups (channel/program providers) and
the notification provider's outcome are inputs; the activity-recorder side
effect of `_send_alert` is modelled separately (see `record_activity`). -/

/-- `extract_channel_name` lazy capture `([^()]+?)` followed by `(?:\s+from)`:
grow the capture one character at a time until `\s+from` follows. -/
def chanNameLazy : Nat → List Char → List Char → Option (List Char)
  | 0, _, _ => none
  | _ + 1, _, [] => none
  | fuel + 1, cap, c :: cs =>
      if c = '(' || c = ')' then none
      else
        let w := cs.takeWhile pyIsSpace
        if !w.isEmpty && startsWithL (cs.drop w.length) ['f', 'r', 'o', 'm'] then
          some (c :: cap).reverse
        else chanNameLazy fuel (c :: cap) cs

/-- The `\s+([^()]+?)(?:\s+from)` tail of the channel-name pattern. -/
def chanNameTail (rest : List Char) : Option (List Char) :=
  let w := rest.takeWhile pyIsSpace
  if w.isEmpty then none
  else chanNameLazy ((rest.drop w.length).length + 1) [] (rest.drop w.length)

/-- Match `ch(?:annel)?\s*(?:\d+\.\d+|\d+)\s+([^()]+?)(?:\s+from)` (IGNORECASE)
at the current position. -/
def matchChanNameAt (l : List Char) : Option (List Char) :=
  if startsWithCIL l ['c', 'h'] then
    let afterCh (r : List Char) : Option (List Char) :=
      let r2 := r.dropWhile pyIsSpace
      let d1 := r2.takeWhile Char.isDigit
      if d1.isEmpty then none
      else
        let afterD1 := r2.drop d1.length
        let dotted : Option (List Char) :=
          match afterD1 with
          | '.' :: r4 =>
              let d2 := r4.takeWhile Char.isDigit
              if d2.isEmpty then none else chanNameTail (r4.drop d2.length)
          | _ => none
        match dotted with
        | some m => some m
        | none => chanNameTail afterD1
    let rest := l.drop 2
    match (if startsWithCIL rest ['a', 'n', 'n', 'e', 'l'] then afterCh (rest.drop 5)
           else none) with
    | some m => some m
    | none => afterCh rest
  else none

/-- Leftmost-search wrapper for `matchChanNameAt`. -/
def searchChanName : List Char → Option (List Char)
  | [] => none
  | c :: cs =>
      match matchChanNameAt (c :: cs) with
      | some m => some m
      | none => searchChanName cs

/-- `extract_channel_name` (`core/helpers/parsing.py`). -/
def extract_channel_name (value : String) : Option String :=
  match searchChanName value.data with
  | some cap =>
      let name := String.mk (stripL cap)
      if name ≠ "" then some name else none
  | none => none

example : extract_channel_name "Watching ch7 ABC from LivingRoom (192.168.1.10) 1080i" =
    some "ABC" := by decide

structure ChannelInfo where
  number : String
  name : Option String
  device : String
  ip : String
  resolution : String
  source : String
  logoUrl : Option String
  streamCount : Option Nat
  programTitle : Option String
  programIconUrl : Option String
  deriving Repr, DecidableEq

structure CWSessionData where
  channelInfo : ChannelInfo
  trackingKey : String
  timestamp : Nat
  deriving Repr, DecidableEq

structure CWState where
  sm : SMState CWSessionData
  tracker : TrackerState
  deriving Repr

def CWState.init : CWState := ⟨SessionManager.init, StreamTracker.init⟩

structure CWConfig where
  streamCountEnabled : Bool
  programNameEnabled : Bool
  imageSource : String
  deriving Repr

structure ProviderChannelInfo where
  name : Option String
  logoUrl : Option String
  deriving Repr

structure CWEnv where
  channelProviderInfo : String → Option ProviderChannelInfo
  programInfo : String → Option (String × Option String)

/-- One `activities.set` event as the detector sees it, with its processing
instant and the notification provider's outcome for a send performed while
handling it. -/
structure CWInput where
  eventType : String
  name : Option String
  value : Option String
  time : Nat
  sendSuccess : Bool
  deriving Repr

namespace CW

/-- `BaseAlert._is_end_event`. -/
def isEndEvent (eventType : String) (name value : Option String) : Bool :=
  eventType = "activities.set" && name.isSome && (value.getD "" = "")

/-- `ChannelWatchingAlert._is_watching_event` (the `buf=`/`fps` block only
logs). -/
def isWatchingEvent (eventType : String) (value : Option String) : Bool :=
  if eventType ≠ "activities.set" || value.isNone || value.getD "" = "" then false
  else
    let v := value.getD ""
    pyContains v "Watching ch" ||
      (pyContains (pyLower v) "channel" && pyContains (pyLower v) "watching")

/-- `ChannelWatchingAlert._is_new_session`. -/
def isNewSession (sm : SMState CWSessionData) (sessionId channelNumber : String) : Bool :=
  match SessionManager.get_session sm sessionId with
  | none => true
  | some sd => sd.channelInfo.number ≠ channelNumber

/-- The body of `_process_watching_event` past the same-channel check: close
other sessions of this device, build `channel_info`, send, and on success
record the notification and upsert the session. -/
def emitBody (cfg : CWConfig) (env : CWEnv) (i : CWInput) (st : CWState)
    (trackingKey channel_number device_name : String) : Bool × CWState × Option String :=
  let session_id := i.name.getD ""
  let value := i.value.getD ""
  let deviceSessions := (st.sm.activeSessions.filter
    (fun p => p.1 ≠ session_id && p.2.channelInfo.device = device_name)).map Prod.fst
  let sm1 := deviceSessions.foldl SessionManager.remove_session st.sm
  let nameFromVal := extract_channel_name value
  let ip_from_val := parsing.extract_ip_address value
  let ip_from_name :=
    if session_id ≠ "" then
      let lastPart := (pySplit session_id "-").getLastD ""
      if is_valid_ip_address lastPart then lastPart else ""
    else ""
  let preferred_ip := if pyTruthyOpt ip_from_val then ip_from_val.getD "" else ip_from_name
  let ipStr := if preferred_ip ≠ "" then preferred_ip else "Unknown IP"
  let resolution :=
    match extract_resolution value with
    | some r => if r ≠ "" then r else "Unknown resolution"
    | none => "Unknown resolution"
  let source :=
    match extract_source_from_session_id session_id with
    | some s => if s ≠ "" then s else "Unknown source"
    | none => "Unknown source"
  let haveName := pyTruthyOpt nameFromVal
  let nameLogo :=
    if !haveName || !false then
      match env.channelProviderInfo channel_number with
      | some pi =>
          (if !haveName && pyTruthyOpt pi.name then pi.name else nameFromVal,
           if pyTruthyOpt pi.logoUrl then pi.logoUrl else none)
      | none => (if !haveName then some "Unknown Channel" else nameFromVal, none)
    else (nameFromVal, none)
  let streamCount :=
    if cfg.streamCountEnabled then some (StreamTracker.get_stream_count st.tracker)
    else none
  let prog :=
    if cfg.programNameEnabled then
      match env.programInfo channel_number with
      | some ti => (some ti.1, ti.2)
      | none => (none, none)
    else (none, none)
  let channel_info : ChannelInfo :=
    ⟨channel_number, nameLogo.1, device_name, ipStr, resolution, source, nameLogo.2,
     streamCount, prog.1, prog.2⟩
  let success := i.sendSuccess
  if success then
    let sm2 := SessionManager.add_session
      (SessionManager.record_notification sm1 trackingKey i.time) session_id
      ⟨channel_info, trackingKey, i.time⟩
    (true, { st with sm := sm2 }, some trackingKey)
  else (false, { st with sm := sm1 }, none)

/-- `_process_watching_event(event_data, tracking_key)`. -/
def processWatchingEvent (cfg : CWConfig) (env : CWEnv) (i : CWInput) (st : CWState)
    (trackingKey : String) : Bool × CWState × Option String :=
  let session_id := i.name.getD ""
  let value := i.value.getD ""
  match extract_channel_number value with
  | none => (false, st, none)
  | some channel_number =>
      let device_name :=
        if pyTruthyOpt (extract_device_name value) then (extract_device_name value).getD ""
        else "Unknown device"
      match SessionManager.get_session st.sm session_id with
      | some sd =>
          if sd.channelInfo.number = channel_number then
            let smR := SessionManager.add_session st.sm session_id
              ⟨sd.channelInfo, trackingKey, i.time⟩
            (false, { st with sm := smR }, none)
          else emitBody cfg env i st trackingKey channel_number device_name
      | none => emitBody cfg env i st trackingKey channel_number device_name

/-- `device_identifier = device_name if device_name else ip_address` from
`_handle_event` (empty string stands for a falsy identifier). -/
def deviceIdentifierOf (value : String) : String :=
  if pyTruthyOpt (extract_device_name value) then (extract_device_name value).getD ""
  else if pyTruthyOpt (parsing.extract_ip_address value) then
    (parsing.extract_ip_address value).getD ""
  else ""

/-- The Stream-Tracker call of `_handle_event`, gated on `stream_count`. -/
def trackerStep (cfg : CWConfig) (tr : TrackerState) (value sessionId : String)
    (now : Nat) : Bool × TrackerState :=
  if cfg.streamCountEnabled then StreamTracker.process_activity tr value sessionId now
  else (false, tr)

/-- The skip condition of `_handle_event` line 146:
`stream_changed and self.stream_count_enabled and not self._is_new_session(...)`. -/
def streamLogOnly (cfg : CWConfig) (streamChanged : Bool) (sm : SMState CWSessionData)
    (sessionId channelNumber : String) : Bool :=
  streamChanged && cfg.streamCountEnabled && !isNewSession sm sessionId channelNumber

/-- `_handle_event` under the module event lock. -/
def handleEvent (cfg : CWConfig) (env : CWEnv) (i : CWInput) (st : CWState) :
    Bool × CWState × Option String :=
  let value := i.value.getD ""
  let session_id := i.name.getD ""
  match extract_channel_number value with
  | none => (false, st, none)
  | some channel_number =>
      if deviceIdentifierOf value = "" then (false, st, none)
      else
        let trackingKey := "ch" ++ channel_number ++ "-" ++ deviceIdentifierOf value
        let pa := trackerStep cfg st.tracker value session_id i.time
        let st1 : CWState := { st with tracker := pa.2 }
        if SessionManager.is_event_processing st1.sm trackingKey then (false, st1, none)
        else if !should_send_notification st1.sm trackingKey 5 i.time then (false, st1, none)
        else
          let st2 : CWState :=
            { st1 with sm := SessionManager.mark_event_processing st1.sm trackingKey i.time }
          let res :=
            if streamLogOnly cfg pa.1 st2.sm session_id channel_number then
              (false, st2, (none : Option String))
            else processWatchingEvent cfg env i st2 trackingKey
          (res.1,
           { res.2.1 with sm := SessionManager.complete_event_processing res.2.1.sm trackingKey },
           res.2.2)

/-- `process_end_event(session_id)`: log the exit, feed `{}` (whose `str()` is
`"{}"`) to the Stream Tracker when enabled, remove the session. -/
def processEndEvent (cfg : CWConfig) (sessionId : String) (now : Nat) (st : CWState) :
    CWState :=
  match SessionManager.get_session st.sm sessionId with
  | some _ =>
      let tr1 :=
        if cfg.streamCountEnabled then
          (StreamTracker.process_activity st.tracker "{}" sessionId now).2
        else st.tracker
      { sm := SessionManager.remove_session st.sm sessionId, tracker := tr1 }
  | none => st

/-- `BaseAlert.process_event` as specialised by `ChannelWatchingAlert`
(which overrides `process_end_event`). -/
def processEvent (cfg : CWConfig) (env : CWEnv) (i : CWInput) (st : CWState) :
    Bool × CWState × Option String :=
  if isEndEvent i.eventType i.name i.value then
    (false, processEndEvent cfg (i.name.getD "") i.time st, none)
  else if isWatchingEvent i.eventType i.value then handleEvent cfg env i st
  else (false, st, none)

/-- The tracking key `ch<number>-<device-or-ip>` computed by `_handle_event`,
as a function of the event alone. -/
def trackingKeyOf (i : CWInput) : Option String :=
  match extract_channel_number (i.value.getD "") with
  | none => none
  | some channel_number =>
      if deviceIdentifierOf (i.value.getD "") = "" then none
      else some ("ch" ++ channel_number ++ "-" ++ deviceIdentifierOf (i.value.getD ""))

end CW

theorem foldl_remove_session_hist {σ : Type} (ids : List String) (sm : SMState σ) :
    (ids.foldl SessionManager.remove_session sm).notificationHistory =
      sm.notificationHistory := by
  induction ids generalizing sm with
  | nil => rfl
  | cons i is ih => exact ih _

theorem foldl_remove_session_proc {σ : Type} (ids : List String) (sm : SMState σ) :
    (ids.foldl SessionManager.remove_session sm).processingEvents =
      sm.processingEvents := by
  induction ids generalizing sm with
  | nil => rfl
  | cons i is ih => exact ih _

namespace CW

theorem emitBody_emit (cfg : CWConfig) (env : CWEnv) (i : CWInput) (st : CWState)
    (tk cn dev k : String) (h : (emitBody cfg env i st tk cn dev).2.2 = some k) :
    k = tk := by
  unfold emitBody at h
  by_cases hs : i.sendSuccess
  · simp only [hs, if_true] at h
    exact (Option.some.inj h).symm
  · simp only [hs, Bool.false_eq_true, if_false] at h
    exact absurd h (by simp)

theorem emitBody_hist (cfg : CWConfig) (env : CWEnv) (i : CWInput) (st : CWState)
    (tk cn dev k : String) :
    alookup (emitBody cfg env i st tk cn dev).2.1.sm.notificationHistory k =
      (if (emitBody cfg env i st tk cn dev).2.2 = some k then some i.time
       else alookup st.sm.notificationHistory k) := by
  unfold emitBody
  by_cases hs : i.sendSuccess
  · simp only [hs, if_true]
    by_cases hk : tk = k
    · subst hk
      simp [SessionManager.add_session, SessionManager.record_notification,
        foldl_remove_session_hist, alookup_ainsert_self]
    · simp only [SessionManager.add_session, SessionManager.record_notification]
      rw [alookup_ainsert_ne _ _ _ _ hk, foldl_remove_session_hist]
      simp [hk]
  · simp [hs, foldl_remove_session_hist]

theorem processWatchingEvent_emit (cfg : CWConfig) (env : CWEnv) (i : CWInput)
    (st : CWState) (tk k : String)
    (h : (processWatchingEvent cfg env i st tk).2.2 = some k) : k = tk := by
  unfold processWatchingEvent at h
  cases hcn : extract_channel_number (i.value.getD "") with
  | none => simp only [hcn] at h; exact absurd h (by simp)
  | some cn =>
      simp only [hcn] at h
      cases hgs : SessionManager.get_session st.sm (i.name.getD "") with
      | none => simp only [hgs] at h; exact emitBody_emit _ _ _ _ _ _ _ _ h
      | some sd =>
          simp only [hgs] at h
          by_cases hnum : sd.channelInfo.number = cn
          · simp only [if_pos hnum] at h
            exact absurd h (by simp)
          · simp only [if_neg hnum] at h
            exact emitBody_emit _ _ _ _ _ _ _ _ h

theorem processWatchingEvent_hist (cfg : CWConfig) (env : CWEnv) (i : CWInput)
    (st : CWState) (tk k : String) :
    alookup (processWatchingEvent cfg env i st tk).2.1.sm.notificationHistory k =
      (if (processWatchingEvent cfg env i st tk).2.2 = some k then some i.time
       else alookup st.sm.notificationHistory k) := by
  unfold processWatchingEvent
  cases hcn : extract_channel_number (i.value.getD "") with
  | none => simp [hcn]
  | some cn =>
      simp only [hcn]
      cases hgs : SessionManager.get_session st.sm (i.name.getD "") with
      | none => simp only [hgs]; exact emitBody_hist _ _ _ _ _ _ _ _
      | some sd =>
          simp only [hgs]
          by_cases hnum : sd.channelInfo.number = cn
          · simp only [if_pos hnum]
            simp [SessionManager.add_session]
          · simp only [if_neg hnum]
            exact emitBody_hist _ _ _ _ _ _ _ _

theorem handleEvent_hist (cfg : CWConfig) (env : CWEnv) (i : CWInput) (st : CWState)
    (k : String) :
    alookup (handleEvent cfg env i st).2.1.sm.notificationHistory k =
      (if (handleEvent cfg env i st).2.2 = some k then some i.time
       else alookup st.sm.notificationHistory k) := by
  unfold handleEvent
  cases hcn : extract_channel_number (i.value.getD "") with
  | none => simp [hcn]
  | some cn =>
      simp only [hcn]
      split
      · simp
      · split
        · simp
        · split
          · simp
          · split
            · simp [SessionManager.complete_event_processing,
                SessionManager.mark_event_processing]
            · exact processWatchingEvent_hist cfg env i _ _ k

theorem handleEvent_gate (cfg : CWConfig) (env : CWEnv) (i : CWInput) (st : CWState)
    (k : String) (ts : Nat) (he : (handleEvent cfg env i st).2.2 = some k)
    (hts : alookup st.sm.notificationHistory k = some ts) : ts + 5 ≤ i.time := by
  unfold handleEvent at he
  cases hcn : extract_channel_number (i.value.getD "") with
  | none => simp [hcn] at he
  | some cn =>
      simp only [hcn] at he
      split at he
      · exact absurd he (by simp)
      · split at he
        · exact absurd he (by simp)
        · split at he
          · exact absurd he (by simp)
          · rename_i hdev hproc hss
            split at he
            · exact absurd he (by simp)
            · have hk := processWatchingEvent_emit cfg env i _ _ k he
              have hsend : should_send_notification st.sm
                  ("ch" ++ cn ++ "-" ++ deviceIdentifierOf (i.value.getD "")) 5 i.time
                  = true := by
                simpa using hss
              rw [← hk] at hsend
              unfold should_send_notification SessionManager.was_notification_sent at hsend
              rw [hts] at hsend
              simp at hsend
              omega

theorem handleEvent_emit_tk (cfg : CWConfig) (env : CWEnv) (i : CWInput) (st : CWState)
    (k : String) (he : (handleEvent cfg env i st).2.2 = some k) :
    trackingKeyOf i = some k := by
  unfold handleEvent at he
  cases hcn : extract_channel_number (i.value.getD "") with
  | none => simp [hcn] at he
  | some cn =>
      simp only [hcn] at he
      unfold trackingKeyOf
      simp only [hcn]
      split at he
      · exact absurd he (by simp)
      · rename_i hdev
        rw [if_neg hdev]
        split at he
        · exact absurd he (by simp)
        · split at he
          · exact absurd he (by simp)
          · split at he
            · exact absurd he (by simp)
            · have hk := processWatchingEvent_emit cfg env i _ _ k he
              rw [hk]

theorem processEndEvent_hist (cfg : CWConfig) (sid : String) (now : Nat) (st : CWState)
    (k : String) :
    alookup (processEndEvent cfg sid now st).sm.notificationHistory k =
      alookup st.sm.notificationHistory k := by
  unfold processEndEvent
  cases SessionManager.get_session st.sm sid <;>
    simp [SessionManager.remove_session]

theorem processEvent_hist (cfg : CWConfig) (env : CWEnv) (i : CWInput) (st : CWState)
    (k : String) :
    alookup (processEvent cfg env i st).2.1.sm.notificationHistory k =
      (if (processEvent cfg env i st).2.2 = some k then some i.time
       else alookup st.sm.notificationHistory k) := by
  unfold processEvent
  split
  · simp [processEndEvent_hist]
  · split
    · exact handleEvent_hist cfg env i st k
    · simp

theorem processEvent_gate (cfg : CWConfig) (env : CWEnv) (i : CWInput) (st : CWState)
    (k : String) (ts : Nat) (he : (processEvent cfg env i st).2.2 = some k)
    (hts : alookup st.sm.notificationHistory k = some ts) : ts + 5 ≤ i.time := by
  unfold processEvent at he
  split at he
  · exact absurd he (by simp)
  · split at he
    · exact handleEvent_gate cfg env i st k ts he hts
    · exact absurd he (by simp)

theorem processEvent_emit_tk (cfg : CWConfig) (env : CWEnv) (i : CWInput) (st : CWState)
    (k : String) (he : (processEvent cfg env i st).2.2 = some k) :
    trackingKeyOf i = some k := by
  unfold processEvent at he
  split at he
  · exact absurd he (by simp)
  · split at he
    · exact handleEvent_emit_tk cfg env i st k he
    · exact absurd he (by simp)

theorem trackingKeyOf_congr (i j : CWInput) (h : i.value = j.value) :
    trackingKeyOf i = trackingKeyOf j := by
  unfold trackingKeyOf
  rw [h]

/-- No emission and a `False` result whenever the event's tracking key is
within its 5-second cooldown window (or any earlier guard trips). -/
theorem processEvent_blocked (cfg : CWConfig) (env : CWEnv) (i : CWInput) (st : CWState)
    (k : String) (ts : Nat) (htk : trackingKeyOf i = some k)
    (hts : alookup st.sm.notificationHistory k = some ts) (hlt : i.time < ts + 5) :
    (processEvent cfg env i st).1 = false ∧ (processEvent cfg env i st).2.2 = none := by
  unfold processEvent
  split
  · exact ⟨rfl, rfl⟩
  · split
    · unfold trackingKeyOf at htk
      cases hcn : extract_channel_number (i.value.getD "") with
      | none => rw [hcn] at htk; exact absurd htk (by simp)
      | some cn =>
          rw [hcn] at htk
          simp only at htk
          unfold handleEvent
          simp only [hcn]
          split
          · exact ⟨rfl, rfl⟩
          · rename_i hdev
            rw [if_neg hdev] at htk
            have hk : ("ch" ++ cn ++ "-" ++ deviceIdentifierOf (i.value.getD "")) = k :=
              Option.some.inj htk
            split
            · exact ⟨rfl, rfl⟩
            · rename_i hproc
              have hblock : (!should_send_notification st.sm k 5 i.time) = true := by
                unfold should_send_notification SessionManager.was_notification_sent
                rw [hts]
                simpa using hlt
              rw [hk]
              rw [if_pos (by simpa using hblock)]
              exact ⟨rfl, rfl⟩
    · exact ⟨rfl, rfl⟩

end CW

/-- The Channel-Watching detector as a gated emitter: cooldown 5 s on the
tracking key, `record_notification` on every successful send. -/
def cwEmitter (cfg : CWConfig) (env : CWEnv) : GatedEmitter CWState CWInput where
  step s i := (CW.processEvent cfg env i s).2.1
  time i := i.time
  emitKey s i := (CW.processEvent cfg env i s).2.2
  hist s k := alookup s.sm.notificationHistory k
  cooldown := 5
  gate s i k ts hek hts := CW.processEvent_gate cfg env i s k ts hek hts
  step_hist s i k := CW.processEvent_hist cfg env i s k

/-- C7.  Processing the identical channel-watching `activities.set` event twice
in immediate succession produces exactly one alert: if the first processing
emits an alert (under tracking key `k`, recorded in the Session Store at the
first event's time), a second pass over the same event within 5 seconds finds
the tracking key inside its cooldown (or an earlier guard) and returns `False`
without emitting, so the two-event run emits exactly the one notification. -/
theorem channelWatching_duplicate_suppressed
    (cfg : CWConfig) (env : CWEnv) (i₁ i₂ : CWInput) (s₀ : CWState) (k : String)
    (hval : i₂.value = i₁.value)
    (hclose : i₂.time < i₁.time + 5)
    (hemit : (CW.processEvent cfg env i₁ s₀).2.2 = some k) :
    (cwEmitter cfg env).runEmissions s₀ [i₁, i₂] = [(k, i₁.time)] ∧
      (CW.processEvent cfg env i₂ (CW.processEvent cfg env i₁ s₀).2.1).1 = false := by
  have htk1 := CW.processEvent_emit_tk cfg env i₁ s₀ k hemit
  have htk2 : CW.trackingKeyOf i₂ = some k := by
    rw [CW.trackingKeyOf_congr i₂ i₁ hval]; exact htk1
  have hh : alookup (CW.processEvent cfg env i₁ s₀).2.1.sm.notificationHistory k =
      some i₁.time := by
    rw [CW.processEvent_hist cfg env i₁ s₀ k, if_pos hemit]
  have hblock := CW.processEvent_blocked cfg env i₂
    (CW.processEvent cfg env i₁ s₀).2.1 k i₁.time htk2 hh hclose
  refine ⟨?_, hblock.1⟩
  have e1 : (cwEmitter cfg env).emitKey s₀ i₁ = some k := hemit
  have e2 : (cwEmitter cfg env).emitKey ((cwEmitter cfg env).step s₀ i₁) i₂ = none :=
    hblock.2
  rw [GatedEmitter.runEmissions, e1, GatedEmitter.runEmissions, e2,
    GatedEmitter.runEmissions]
  rfl

/-- Witness for C7 at a concrete event: the scenario-1 channel start processed
twice, 2 seconds apart, yields exactly one emission. -/
theorem channelWatching_duplicate_suppressed_witness :
    (cwEmitter ⟨true, false, "CHANNEL"⟩ ⟨fun _ => none, fun _ => none⟩).runEmissions
        CWState.init
        [⟨"activities.set", some "6-stream-M3U-Primary-abc",
          some "Watching ch7 ABC from LivingRoom (192.168.1.10) 1080i", 1000, true⟩,
         ⟨"activities.set", some "6-stream-M3U-Primary-abc",
          some "Watching ch7 ABC from LivingRoom (192.168.1.10) 1080i", 1002, true⟩] =
      [("ch7-LivingRoom", 1000)] :=
  (channelWatching_duplicate_suppressed ⟨true, false, "CHANNEL"⟩
    ⟨fun _ => none, fun _ => none⟩
    ⟨"activities.set", some "6-stream-M3U-Primary-abc",
      some "Watching ch7 ABC from LivingRoom (192.168.1.10) 1080i", 1000, true⟩
    ⟨"activities.set", some "6-stream-M3U-Primary-abc",
      some "Watching ch7 ABC from LivingRoom (192.168.1.10) 1080i", 1002, true⟩
    CWState.init "ch7-LivingRoom" rfl (by decide) (by decide)).1

/-! ## Recording-Events detector (`core/alerts/recording_events.py`)

The completed-recording path `_process_completed_recording`: boolean
extraction from the upstream dict (which may carry the flags as `bool` or
`str`, under a lower-case or capitalised key), outcome classification, the
60-second notification cooldown, and the notification-history record. -/

/-- A JSON-ish primitive as `isinstance(… , bool)/(… , str)` sees it. -/
inductive PyPrim where
  | bool (b : Bool)
  | str (s : String)
  | other
  deriving Repr, DecidableEq

/-- The `cancelled`/`Cancelled` (etc.) flag extraction of
`_process_completed_recording`: lower-case key first, else capitalised key;
`bool` taken as-is, `str` compared lower-cased against `"true"`, anything else
leaves the flag `False`. -/
def flagValue (lower cap : Option PyPrim) : Bool :=
  match lower with
  | some (.bool b) => b
  | some (.str s) => pyLower s == "true"
  | some .other => false
  | none =>
      match cap with
      | some (.bool b) => b
      | some (.str s) => pyLower s == "true"
      | some .other => false
      | none => false

/-- The fields of a completed recording consumed by
`_process_completed_recording`. -/
structure Recording where
  id : String
  jobId : Option String
  title : String
  episodeTitle : Option String
  channel : Option String
  duration : Nat
  summary : Option String
  imageUrl : Option String
  cancelledLower : Option PyPrim
  cancelledCap : Option PyPrim
  completedLower : Option PyPrim
  completedCap : Option PyPrim
  delayedLower : Option PyPrim
  delayedCap : Option PyPrim
  deriving Repr

/-- `RecordingEventsAlert.STATUS_EMOJI`. -/
def STATUS_EMOJI (statusType : String) : String :=
  if statusType = "scheduled" then "📅"
  else if statusType = "started" then "🔴"
  else if statusType = "completed" then "✅"
  else if statusType = "cancelled" then "🚫"
  else if statusType = "stopped" then "⏹️"
  else "⚠️"

structure RecClassification where
  notificationKey : String
  statusType : String
  statusLine : String
  deriving Repr, DecidableEq

/-- The classification block of `_process_completed_recording` (lines
1101–1144): `manually_stopped = cancelled and completed`,
`is_interrupted = cancelled and not completed`, the notification key and
status type, and the emitted `status` line
`f"{STATUS_EMOJI[status_type]} {status_messages[status_type]}{status_suffix}"`. -/
def classifyCompleted (fileId : String) (is_cancelled is_completed is_delayed : Bool) :
    RecClassification :=
  let manually_stopped := is_cancelled && is_completed
  let is_interrupted := is_cancelled && !is_completed
  let nkStatus :=
    if manually_stopped then ("recording-stopped-" ++ fileId, "stopped")
    else if is_cancelled then ("recording-cancelled-" ++ fileId, "cancelled")
    else ("recording-completed-" ++ fileId, "completed")
  let status_message :=
    if nkStatus.2 = "stopped" then "Stopped"
    else if nkStatus.2 = "cancelled" then "Cancelled"
    else "Completed"
  let status_suffix :=
    if nkStatus.2 = "completed" then
      if is_delayed then " (Delayed)"
      else if is_interrupted then " (Interrupted)"
      else ""
    else ""
  ⟨nkStatus.1, nkStatus.2, STATUS_EMOJI nkStatus.2 ++ " " ++ status_message ++ status_suffix⟩

/-- Detector state touched by `_process_completed_recording`: its
`SessionManager` (here only the notification history matters) and
`active_recordings` (whose stored job payload the path never reads). -/
structure RecState where
  sm : SMState Unit
  activeRecordings : List (String × Unit)
  deriving Repr

/-- One completed-recording processing: the file id and recording fetched for
it, the stream count snapshot, and the processing instant. -/
structure RecInput where
  fileId : String
  recording : Recording
  streamCount : Nat
  time : Nat
  deriving Repr

/-- `job_id = recording.get("job_id"); if job_id and job_id in
self.active_recordings: del self.active_recordings[job_id]`. -/
def dropActiveJob (st : RecState) (jobId : Option String) : RecState :=
  if pyTruthyOpt jobId && amem st.activeRecordings (jobId.getD "") then
    { st with activeRecordings := aerase st.activeRecordings (jobId.getD "") }
  else st

/-- `_process_completed_recording(file_id, recording, event_data, stream_count)`
as a state transition.  Returns the Python result, the new state, and the key
of the notification sent (`none` when the cooldown suppressed it).  The body's
message formatting is summarised by `classifyCompleted` (the status line); the
`record_recording_event` call goes to the Activity Recorder, modelled
separately; `send_alert` exceptions are swallowed by the source. -/
def processCompletedRecording (i : RecInput) (st : RecState) :
    Bool × RecState × Option String :=
  let c := flagValue i.recording.cancelledLower i.recording.cancelledCap
  let comp := flagValue i.recording.completedLower i.recording.completedCap
  let d := flagValue i.recording.delayedLower i.recording.delayedCap
  let cls := classifyCompleted i.fileId c comp d
  if !should_send_notification st.sm cls.notificationKey 60 i.time then
    (true, dropActiveJob st i.recording.jobId, none)
  else
    let st1 : RecState :=
      { st with sm := SessionManager.record_notification st.sm cls.notificationKey i.time }
    (true, dropActiveJob st1 i.recording.jobId, some cls.notificationKey)

theorem dropActiveJob_hist (st : RecState) (jobId : Option String) (k : String) :
    alookup (dropActiveJob st jobId).sm.notificationHistory k =
      alookup st.sm.notificationHistory k := by
  unfold dropActiveJob
  split <;> rfl

/-- The `recording-<state>-<id>` notification key of a completed-recording
input. -/
def recKeyOf (i : RecInput) : String :=
  (classifyCompleted i.fileId
    (flagValue i.recording.cancelledLower i.recording.cancelledCap)
    (flagValue i.recording.completedLower i.recording.completedCap)
    (flagValue i.recording.delayedLower i.recording.delayedCap)).notificationKey

theorem processCompletedRecording_eq (i : RecInput) (st : RecState) :
    processCompletedRecording i st =
      if (!should_send_notification st.sm (recKeyOf i) 60 i.time) = true then
        (true, dropActiveJob st i.recording.jobId, none)
      else
        (true,
         dropActiveJob
           { st with sm := SessionManager.record_notification st.sm (recKeyOf i) i.time }
           i.recording.jobId,
         some (recKeyOf i)) := rfl

theorem processCompletedRecording_hist (i : RecInput) (st : RecState) (k : String) :
    alookup (processCompletedRecording i st).2.1.sm.notificationHistory k =
      (if (processCompletedRecording i st).2.2 = some k then some i.time
       else alookup st.sm.notificationHistory k) := by
  simp only [processCompletedRecording_eq]
  by_cases hss : should_send_notification st.sm (recKeyOf i) 60 i.time
  · simp only [if_neg (by simp [hss] : ¬((!should_send_notification st.sm (recKeyOf i)
      60 i.time) = true))]
    simp only [dropActiveJob_hist, SessionManager.record_notification]
    by_cases hk : recKeyOf i = k
    · simp [hk, alookup_ainsert_self]
    · rw [alookup_ainsert_ne _ _ _ _ hk]
      simp [hk]
  · simp only [if_pos (by simp [Bool.not_eq_true] at hss; simp [hss] :
      ((!should_send_notification st.sm (recKeyOf i) 60 i.time) = true))]
    simp [dropActiveJob_hist]

theorem processCompletedRecording_gate (i : RecInput) (st : RecState) (k : String)
    (ts : Nat) (he : (processCompletedRecording i st).2.2 = some k)
    (hts : alookup st.sm.notificationHistory k = some ts) : ts + 60 ≤ i.time := by
  rw [processCompletedRecording_eq] at he
  by_cases hss : should_send_notification st.sm (recKeyOf i) 60 i.time
  · have hk : recKeyOf i = k := by
      rw [if_neg (by simp [hss] : ¬((!should_send_notification st.sm (recKeyOf i)
        60 i.time) = true))] at he
      exact Option.some.inj he
    have hsend : should_send_notification st.sm k 60 i.time = true := by
      rw [← hk]; exact hss
    unfold should_send_notification SessionManager.was_notification_sent at hsend
    rw [hts] at hsend
    simp at hsend
    omega
  · rw [if_pos (by simp [Bool.not_eq_true] at hss; simp [hss] :
      ((!should_send_notification st.sm (recKeyOf i) 60 i.time) = true))] at he
    exact absurd he (by simp)

/-- The completed-recording path as a gated emitter: cooldown 60 s on
`recording-<state>-<id>`, recorded on every emission. -/
def recEmitter : GatedEmitter RecState RecInput where
  step s i := (processCompletedRecording i s).2.1
  time i := i.time
  emitKey s i := (processCompletedRecording i s).2.2
  hist s k := alookup s.sm.notificationHistory k
  cooldown := 60
  gate s i k ts hek hts := processCompletedRecording_gate i s k ts hek hts
  step_hist s i k := processCompletedRecording_hist i s k

/-- C4.  For every sequence of events processed by a detector and every
tracking/notification key, no two notifications with the same key are emitted
less than the key's cooldown apart — 5 s for Channel-Watching tracking keys,
60 s for Recording-Events completed-recording keys.  Every emission path
checks `should_send_notification` against the Session Store before sending and
records the key's timestamp when it sends (the `gate`/`step_hist` obligations
of the two emitters), which forces the pairwise separation along any run. -/
theorem notification_cooldown_separation :
    (∀ (cfg : CWConfig) (env : CWEnv) (s : CWState) (l : List CWInput),
      ((cwEmitter cfg env).runEmissions s l).Pairwise
        (fun a b => a.1 = b.1 → a.2 + 5 ≤ b.2)) ∧
    (∀ (s : RecState) (l : List RecInput),
      (recEmitter.runEmissions s l).Pairwise
        (fun a b => a.1 = b.1 → a.2 + 60 ≤ b.2)) :=
  ⟨fun cfg env s l => GatedEmitter.emissions_separated (cwEmitter cfg env) l s,
   fun s l => GatedEmitter.emissions_separated recEmitter l s⟩

/-- Witness for C4 at a concrete two-event Channel-Watching trace. -/
theorem notification_cooldown_separation_witness :
    ((cwEmitter ⟨true, false, "CHANNEL"⟩ ⟨fun _ => none, fun _ => none⟩).runEmissions
        CWState.init
        [⟨"activities.set", some "6-stream-M3U-Primary-abc",
          some "Watching ch7 ABC from LivingRoom (192.168.1.10) 1080i", 1000, true⟩,
         ⟨"activities.set", some "6-stream-M3U-Primary-abc",
          some "Watching ch7 ABC from LivingRoom (192.168.1.10) 1080i", 1002, true⟩]).Pairwise
      (fun a b => a.1 = b.1 → a.2 + 5 ≤ b.2) :=
  notification_cooldown_separation.1 ⟨true, false, "CHANNEL"⟩ ⟨fun _ => none, fun _ => none⟩
    CWState.init _

/-- C3 counterexample: a completed recording whose booleans are
`cancelled = False` and `completed = False` (not delayed) gets the status line
`"✅ Completed"` — not `"Completed (Interrupted)"` as the claim states. -/
theorem completedInterrupted_counterexample :
    (classifyCompleted "F1" false false false).statusLine = "✅ Completed" ∧
    (classifyCompleted "F1" false false false).statusLine ≠ "✅ Completed (Interrupted)" ∧
    pyContains (classifyCompleted "F1" false false false).statusLine "Interrupted" = false :=
  ⟨rfl, by decide, rfl⟩

/-- C3 amended.  A completed recording with `cancelled = false` and
`completed = false` is classified `"✅ Completed"` (`"✅ Completed (Delayed)"`
when `delayed` is set); the `" (Interrupted)"` suffix is unreachable for every
flag combination, because `is_interrupted = cancelled and not completed`
requires `cancelled`, which routes to the Stopped/Cancelled classifications
where no suffix is appended. -/
theorem completedInterrupted_amended (fileId : String) :
    (∀ d : Bool, (classifyCompleted fileId false false d).statusLine =
      if d then "✅ Completed (Delayed)" else "✅ Completed") ∧
    (∀ c comp d : Bool,
      pyContains (classifyCompleted fileId c comp d).statusLine "Interrupted" = false) := by
  constructor
  · intro d; cases d <;> rfl
  · intro c comp d; cases c <;> cases comp <;> cases d <;> rfl

/-! ## VOD-Watching detector (`core/alerts/vod_watching.py`)

Timestamp formatting/parsing, the event-Name parser with its fall-back
regexes (whose raw strings contain doubled backslashes, `r'file-?(\\d+)'` and
`r'file\\d+-([a-zA-Z0-9\\.\\-]+)'`, so they match a literal backslash and can
never fire on real event names), the session table with cooldown and
significant-threshold logic, and `BaseAlert.process_event` dispatch. -/

namespace VOD

/-- `re.search(r'(\d+)<unit>', s)`: first digit run immediately followed by the
unit character. -/
def searchNumBeforeChar (unit : Char) : List Char → Option Nat
  | [] => none
  | c :: cs =>
      let d := (c :: cs).takeWhile Char.isDigit
      if !d.isEmpty && ((c :: cs).drop d.length).headD ' ' = unit then
        some (natOfDigits d)
      else searchNumBeforeChar unit cs

/-- Python `f"{n:02d}"`. -/
def pad2 (n : Nat) : String := if n < 10 then "0" ++ toString n else toString n

/-- `format_timestamp` (`core/alerts/vod_watching.py`). -/
def format_timestamp (ts : String) : String :=
  if ts = "" then ""
  else if pyContains ts " " then ts
  else
    let hours := (searchNumBeforeChar 'h' ts.data).getD 0
    let minutes := (searchNumBeforeChar 'm' ts.data).getD 0
    let seconds := (searchNumBeforeChar 's' ts.data).getD 0
    if 0 < hours then toString hours ++ "h " ++ pad2 minutes ++ "m " ++ pad2 seconds ++ "s"
    else if 0 < minutes then toString minutes ++ "m " ++ pad2 seconds ++ "s"
    else toString seconds ++ "s"

/-- `_parse_timestamp_to_seconds`: any exception (a non-numeric `int(...)`
argument) makes the function return 0. -/
def parse_timestamp_to_seconds (ts : String) : Nat :=
  if ts = "" then 0
  else if pyContains ts "h" || pyContains ts "m" || pyContains ts "s" then
    let parts := splitWsL (format_timestamp ts).data
    let step : Option (Nat × Nat × Nat) → List Char → Option (Nat × Nat × Nat) :=
      fun acc part =>
        match acc with
        | none => none
        | some (h, m, s) =>
            if containsL part ['h'] then
              match intOfChars (removeCharL 'h' part) with
              | some n => some (n, m, s)
              | none => none
            else if containsL part ['m'] then
              match intOfChars (removeCharL 'm' part) with
              | some n => some (h, n, s)
              | none => none
            else if containsL part ['s'] then
              match intOfChars (removeCharL 's' part) with
              | some n => some (h, m, n)
              | none => none
            else some (h, m, s)
    match parts.foldl step (some (0, 0, 0)) with
    | some (h, m, s) => h * 3600 + m * 60 + s
    | none => 0
  else
    let parts := pySplit ts ":"
    if parts.length = 3 then
      match intOfChars (parts.getD 0 "").data, intOfChars (parts.getD 1 "").data,
          intOfChars (parts.getD 2 "").data with
      | some h, some m, some s => h * 3600 + m * 60 + s
      | _, _, _ => 0
    else if parts.length = 2 then
      match intOfChars (parts.getD 0 "").data, intOfChars (parts.getD 1 "").data with
      | some m, some s => m * 60 + s
      | _, _ => 0
    else
      match intOfChars (parts.getD 0 "").data with
      | some n => n
      | none => 0

example : parse_timestamp_to_seconds "310s" = 310 := by decide
example : parse_timestamp_to_seconds "1h15m42s" = 4542 := by decide
example : parse_timestamp_to_seconds "12:34" = 754 := by decide

/-- `extract_clean_device_name` (`core/alerts/vod_watching.py`). -/
def extract_clean_device_name (value : String) : Option String :=
  if value = "" then none
  else if pyContains value " from " then
    let parts := pySplit value " from "
    if parts.length < 2 then none
    else
      let dp0 := pyStrip (parts.getD 1 "")
      let dp1 :=
        if pyContains dp0 " at " then pyStrip ((pySplit dp0 " at ").getD 0 "") else dp0
      let dp2 :=
        if pyStartsWith dp1 "(" && pyEndsWith dp1 ")" then
          pyStrip ((dp1.drop 1).dropRight 1)
        else dp1
      if is_valid_ip_address dp2 then none else some dp2
  else none

/-- Index of the last occurrence of a character (`str.rfind`). -/
def rfindIdx (l : List Char) (c : Char) : Option Nat :=
  (List.range l.length).foldl (fun acc n => if l.getD n ' ' = c then some n else acc) none

/-- `extract_ip_address` (`core/alerts/vod_watching.py`): the `" from "`/
`" at "` slice, then the last parenthesised candidate, then a bare
`\d+\.\d+\.\d+\.\d+` search; returns `""` when nothing matches. -/
def extract_ip_address (value : String) : String :=
  if value = "" then ""
  else
    let step1 :=
      if pyContains value " from " then
        let parts := pyStrip ((pySplit ((pySplit value " from ").getD 1 "") " at ").getD 0 "")
        if fullMatchIpQuad parts.data then some parts else none
      else none
    match step1 with
    | some p => p
    | none =>
        let step2 :=
          if pyContains value "(" && pyContains value ")" then
            match rfindIdx value.data '(', rfindIdx value.data ')' with
            | some o, some cidx =>
                if o < cidx then
                  let cand := pyStrip (String.mk ((value.data.drop (o + 1)).take (cidx - (o + 1))))
                  if fullMatchIpQuad cand.data then some cand else none
                else none
            | _, _ => none
          else none
        match step2 with
        | some p => p
        | none =>
            match searchIpQuad value.data with
            | some m => String.mk m
            | none => ""

example : extract_ip_address "Watching file from Living Room (192.168.1.100) at 0s" =
    "192.168.1.100" := by decide

/-- Fallback `re.search(r'file-?(\\d+)', name)` — in the source's raw string the
doubled backslash makes the group `\\d+` a literal backslash followed by `d`s,
so the pattern only matches names containing a backslash. -/
def matchFileBackslashDAt (l : List Char) : Option (List Char) :=
  if startsWithL l ['f', 'i', 'l', 'e'] then
    let r := l.drop 4
    let r2 := match r with | '-' :: t => t | _ => r
    match r2 with
    | '\\' :: rest =>
        let ds := rest.takeWhile (· = 'd')
        if ds.isEmpty then none else some ('\\' :: ds)
    | _ => none
  else none

def searchFileBackslashD : List Char → Option (List Char)
  | [] => none
  | c :: cs =>
      match matchFileBackslashDAt (c :: cs) with
      | some m => some m
      | none => searchFileBackslashD cs

/-- Fallback `re.search(r'file\\d+-([a-zA-Z0-9\\.\\-]+)', name)` — again the
doubled backslashes require a literal backslash after `file`. -/
def matchFileIdentAt (l : List Char) : Option (List Char) :=
  if startsWithL l ['f', 'i', 'l', 'e'] then
    match l.drop 4 with
    | '\\' :: rest =>
        let ds := rest.takeWhile (· = 'd')
        if ds.isEmpty then none
        else
          match rest.drop ds.length with
          | '-' :: r2 =>
              let cls := r2.takeWhile
                (fun c => c.isAlpha || c.isDigit || c = '\\' || c = '.' || c = '-')
              if cls.isEmpty then none else some cls
          | _ => none
    | _ => none
  else none

def searchFileIdent : List Char → Option (List Char)
  | [] => none
  | c :: cs =>
      match matchFileIdentAt (c :: cs) with
      | some m => some m
      | none => searchFileIdent cs

/-- The event-Name parsing of `_handle_event`: `file_id` and
`session_identifier` (empty string for a falsy result). -/
def parseVodName (event_name : String) : String × String :=
  let name_parts := pySplit event_name "-"
  let structured :=
    if 3 ≤ name_parts.length then
      if name_parts.getD 1 "" = "file" then
        (name_parts.getD 2 "",
         if 3 < name_parts.length then String.intercalate "-" (name_parts.drop 3) else "")
      else if pyStartsWith (name_parts.getD 1 "") "file" then
        ((name_parts.getD 1 "").drop 4,
         if 2 < name_parts.length then String.intercalate "-" (name_parts.drop 2) else "")
      else ("", "")
    else ("", "")
  let file_id :=
    if structured.1 = "" then
      match searchFileBackslashD event_name.data with
      | some m => String.mk m
      | none => ""
    else structured.1
  let session_identifier :=
    if structured.2 = "" then
      match searchFileIdent event_name.data with
      | some m => String.mk m
      | none => ""
    else structured.2
  (file_id, session_identifier)

example : parseVodName "6-file-12345-192.168.1.100" = ("12345", "192.168.1.100") := by
  decide
example : parseVodName "7-file99-device1" = ("99", "device1") := by decide

/-- Python `x or default` for an optional string. -/
def pyOrOpt (o : Option String) (d : String) : String :=
  if pyTruthyOpt o then o.getD "" else d

/-- Python `x or default` for a plain string. -/
def pyOrStr (s d : String) : String := if s ≠ "" then s else d

structure VodSession where
  timestamp : String
  lastUpdate : Nat
  lastNotification : Nat
  device : String
  fileId : String
  ip : String
  sessionIdentifier : String
  deriving Repr, DecidableEq

structure VodState where
  activeSessions : List (String × VodSession)
  identifierIpCache : List (String × String)
  deriving Repr, DecidableEq

structure VodSettings where
  vod_device_name : Bool
  vod_device_ip : Bool
  vod_alert_cooldown : Nat
  vod_significant_threshold : Nat
  deriving Repr

/-- The VOD metadata cache: whether `vod_provider.get_metadata(file_id)`
returns an entry. -/
structure VodEnv where
  metadataFound : String → Bool

structure VodInput where
  eventType : String
  name : Option String
  value : Option String
  time : Nat
  sendSuccess : Bool
  deriving Repr

/-- `VODWatchingAlert._should_handle_event`. -/
def shouldHandle (eventType : String) (name value : Option String) : Bool :=
  let event_name := name.getD ""
  let is_file_event :=
    pyStartsWith event_name "6-file-" || pyStartsWith event_name "7-file" ||
      (pyStartsWith event_name "7-" && pyContains event_name "file")
  if !is_file_event then false
  else if eventType ≠ "activities.set" || value.isNone then false
  else
    let v := value.getD ""
    (v = "") ||
      ((pyContains v "Watching" || pyContains v "Streaming") && pyContains v "at")

/-- `_process_watching_event(event_data, session_key, file_id,
session_identifier)`: device/IP resolution (with the identifier→IP cache),
the metadata lookup, and the send; returns `(alert_sent,
determined_ip_for_storage)`.  Message formatting is notification content only;
`record_vod_watching` goes to the Activity Recorder model. -/
def processWatchingEvent (settings : VodSettings) (env : VodEnv) (i : VodInput)
    (ipCache : List (String × String)) (file_id session_identifier : String) :
    Bool × Option String :=
  let value := i.value.getD ""
  if value = "" || !pyContains value " at " then (false, none)
  else
    let ip_from_val := extract_ip_address value
    let ip_from_id := if is_valid_ip_address session_identifier then session_identifier else ""
    let preferred_ip :=
      if ip_from_val ≠ "" then ip_from_val
      else if ip_from_id ≠ "" then ip_from_id
      else (alookup ipCache session_identifier).getD ""
    let final_device_ip :=
      if settings.vod_device_ip && preferred_ip ≠ "" then preferred_ip else "Unknown IP"
    let determined_ip_for_storage :=
      if final_device_ip ≠ "Unknown IP" then some final_device_ip else none
    if !env.metadataFound file_id then (false, none)
    else (i.sendSuccess, determined_ip_for_storage)

/-- Refresh helper: update fields of an existing session in place. -/
def updateSession (st : VodState) (key : String) (f : VodSession → VodSession) :
    VodState :=
  match alookup st.activeSessions key with
  | some s => { st with activeSessions := ainsert st.activeSessions key (f s) }
  | none => st

/-- `VODWatchingAlert._handle_event` under the module event lock; the third
component counts notifications sent (i.e. `send_alert` returned `True`). -/
def handleEvent (settings : VodSettings) (env : VodEnv) (i : VodInput) (st : VodState) :
    Bool × VodState × Nat :=
  let value := i.value.getD ""
  let event_name := i.name.getD ""
  let parsed := parseVodName event_name
  if parsed.1 = "" || parsed.2 = "" then (false, st, 0)
  else
    let file_id := parsed.1
    let session_identifier := parsed.2
    let session_key := "vod" ++ file_id ++ "-" ++ session_identifier
    let st0 :=
      if value ≠ "" then
        let toRemove := (st.activeSessions.filter (fun p =>
          p.2.sessionIdentifier = session_identifier && p.2.fileId ≠ file_id)).map Prod.fst
        { st with activeSessions := toRemove.foldl aerase st.activeSessions }
      else st
    if value = "" then
      (false, { st0 with activeSessions := aerase st0.activeSessions session_key }, 0)
    else if pyContains value "Streaming" && !pyContains value " at " then
      let placeholder : VodSession :=
        ⟨"Streaming", i.time, 0, pyOrOpt (extract_clean_device_name value) "Unknown",
         file_id, pyOrStr (extract_ip_address value) "Unknown", session_identifier⟩
      let st1 :=
        if !amem st0.activeSessions session_key then
          { st0 with activeSessions := ainsert st0.activeSessions session_key placeholder }
        else updateSession st0 session_key
          (fun s => { s with timestamp := "Streaming", lastUpdate := i.time })
      (false, st1, 0)
    else if !pyContains value " at " then (false, st0, 0)
    else
      let current_timestamp := pyStrip ((pySplit value " at ").getLastD "")
      let is_new_session := !amem st0.activeSessions session_key
      let last_notification_time :=
        ((alookup st0.activeSessions session_key).map (·.lastNotification)).getD 0
      if !is_new_session && i.time < last_notification_time + settings.vod_alert_cooldown
      then
        (false,
         updateSession st0 session_key
           (fun s => { s with timestamp := current_timestamp, lastUpdate := i.time }),
         0)
      else
        let bypass_cooldown :=
          if !is_new_session &&
              last_notification_time + settings.vod_alert_cooldown ≤ i.time then false
          else if !is_new_session && 0 < settings.vod_significant_threshold then
            let last_timestamp_str :=
              ((alookup st0.activeSessions session_key).map (·.timestamp)).getD "0s"
            let last_seconds := parse_timestamp_to_seconds last_timestamp_str
            let current_seconds := parse_timestamp_to_seconds current_timestamp
            settings.vod_significant_threshold ≤
              max current_seconds last_seconds - min current_seconds last_seconds
          else false
        let should_process_alert := is_new_session ||
          last_notification_time + settings.vod_alert_cooldown ≤ i.time || bypass_cooldown
        if should_process_alert then
          let pr := processWatchingEvent settings env i st0.identifierIpCache
            file_id session_identifier
          if pr.1 then
            let newSession : VodSession :=
              ⟨current_timestamp, i.time, i.time,
               pyOrOpt (extract_clean_device_name value) "Unknown", file_id,
               pyOrStr (extract_ip_address value) "Unknown", session_identifier⟩
            let st1 := { st0 with
              activeSessions := ainsert st0.activeSessions session_key newSession }
            let st2 :=
              match pr.2 with
              | some ip =>
                  { st1 with identifierIpCache :=
                      ainsert st1.identifierIpCache session_identifier ip }
              | none => st1
            (true, st2, 1)
          else
            (false, updateSession st0 session_key (fun s => { s with lastUpdate := i.time }),
             0)
        else
          (false,
           if !is_new_session then
             updateSession st0 session_key
               (fun s => { s with timestamp := current_timestamp, lastUpdate := i.time })
           else st0,
           0)

/-- `BaseAlert.process_event` as `VODWatchingAlert` inherits it:
`VODWatchingAlert` overrides neither `process_event` nor `process_end_event`,
so an empty-`Value` event with a `Name` is intercepted by `_is_end_event` and
handed to the no-op `BaseAlert.process_end_event`. -/
def processEvent (settings : VodSettings) (env : VodEnv) (i : VodInput) (st : VodState) :
    Bool × VodState × Nat :=
  if CW.isEndEvent i.eventType i.name i.value then (false, st, 0)
  else if shouldHandle i.eventType i.name i.value then handleEvent settings env i st
  else (false, st, 0)

end VOD

/-- C1 (code bug, evaluated at the failing input).  With
`vod_alert_cooldown = 300` and `vod_significant_threshold = 300`, two
timestamped watching events for the same session key 100 s apart at media
positions `"0s"` then `"310s"` produce ONE alert, not two: in `_handle_event`
the cooldown early-return precedes the `bypass_cooldown` computation, whose
guards (`elif not is_new_session and …` after the `current_time -
last_notification_time >= cooldown` branch) can then never select the
significant-threshold bypass.  `"0s"` then `"60s"` produce one alert, the half
of the claim the code does satisfy. -/
theorem vodSignificantThreshold_bypass_dead :
    let settings : VOD.VodSettings := ⟨true, true, 300, 300⟩
    let env : VOD.VodEnv := ⟨fun _ => true⟩
    let i₁ : VOD.VodInput := ⟨"activities.set", some "6-file-12345-192.168.1.100",
      some "Watching file from Living Room (192.168.1.100) at 0s", 1000, true⟩
    let i₂ : VOD.VodInput := ⟨"activities.set", some "6-file-12345-192.168.1.100",
      some "Watching file from Living Room (192.168.1.100) at 310s", 1100, true⟩
    let i₂' : VOD.VodInput := ⟨"activities.set", some "6-file-12345-192.168.1.100",
      some "Watching file from Living Room (192.168.1.100) at 60s", 1100, true⟩
    let r₁ := VOD.processEvent settings env i₁ ⟨[], []⟩
    r₁.2.2 = 1 ∧
    (VOD.processEvent settings env i₂ r₁.2.1).2.2 = 0 ∧
    (VOD.processEvent settings env i₂' r₁.2.1).2.2 = 0 := by decide

/-- C6 (code bug, evaluated at the failing input).  An `activities.set` event
whose `Name` matches the VOD file pattern and whose `Value` is empty is
intercepted by `BaseAlert._is_end_event` inside the public `process_event`
entry point and routed to the no-op `BaseAlert.process_end_event` (which
`VODWatchingAlert` does not override): the session stays in
`active_sessions` and the state is unchanged.  Only a direct `_handle_event`
call performs the deletion the claim (and `_should_handle_event`, which
explicitly accepts empty values) expects. -/
theorem vodEndEvent_not_deleted :
    let settings : VOD.VodSettings := ⟨true, true, 300, 300⟩
    let env : VOD.VodEnv := ⟨fun _ => true⟩
    let iStart : VOD.VodInput := ⟨"activities.set", some "6-file-12345-192.168.1.100",
      some "Watching file from Living Room (192.168.1.100) at 0s", 1000, true⟩
    let iEnd : VOD.VodInput := ⟨"activities.set", some "6-file-12345-192.168.1.100",
      some "", 1500, true⟩
    let st₁ := (VOD.processEvent settings env iStart ⟨[], []⟩).2.1
    amem st₁.activeSessions "vod12345-192.168.1.100" = true ∧
    VOD.processEvent settings env iEnd st₁ = (false, st₁, 0) ∧
    amem (VOD.handleEvent settings env iEnd st₁).2.1.activeSessions
      "vod12345-192.168.1.100" = false := by decide

/-! ## Alert Manager (`core/engine/alert_manager.py`)

`process_event` iterates `self.alert_instances.items()` (a dict in
registration order) and — on the first truthy `process_event` result —
returns that alert type at once.  Detector exceptions are caught and treated
like a falsy result.  The event payload type is a parameter; the second
component records which detectors' `process_event` actually ran. -/

def processEventAux {α : Type} (eventType : String) (e : α) :
    List (String × (String → α → Bool)) → Option String × List String
  | [] => (none, [])
  | (ty, h) :: rest =>
      if h eventType e then (some ty, [ty])
      else
        let r := processEventAux eventType e rest
        (r.1, ty :: r.2)

/-- `AlertManager.process_event(event_type, event_data)`. -/
def AlertManager.process_event {α : Type}
    (instances : List (String × (String → α → Bool))) (eventType : String) (e : α) :
    Option String × List String :=
  if eventType = "hello" then (none, [])
  else processEventAux eventType e instances

/-- The first registered detector whose `process_event` returns truthy. -/
def firstTruthy {α : Type} (eventType : String) (e : α) :
    List (String × (String → α → Bool)) → Option String
  | [] => none
  | (ty, h) :: rest =>
      if h eventType e then some ty else firstTruthy eventType e rest

/-- C2 counterexample: with two registered detectors whose `process_event`
both return truthy, only the first receives the event — the dispatcher's
early return prevents the second from seeing it. -/
theorem dispatch_counterexample :
    (AlertManager.process_event
        [("Channel-Watching", fun _ _ => true), ("VOD-Watching", fun _ _ => true)]
        "activities.set" ()).2 = ["Channel-Watching"] ∧
    "VOD-Watching" ∉ (AlertManager.process_event
        [("Channel-Watching", fun _ _ => true), ("VOD-Watching", fun _ _ => true)]
        "activities.set" ()).2 := by
  exact ⟨rfl, by decide⟩

theorem processEventAux_spec {α : Type} (eventType : String) (e : α) :
    ∀ instances : List (String × (String → α → Bool)),
      processEventAux eventType e instances =
        (firstTruthy eventType e instances,
         (instances.takeWhile (fun p => !p.2 eventType e)).map Prod.fst ++
           (match firstTruthy eventType e instances with
            | some ty => [ty]
            | none => []))
  | [] => rfl
  | (ty, h) :: rest => by
      by_cases hh : h eventType e
      · simp [processEventAux, firstTruthy, hh, List.takeWhile_cons]
      · simp only [processEventAux, firstTruthy, if_neg hh,
          processEventAux_spec eventType e rest]
        simp [List.takeWhile_cons, hh]

/-- C2 amended.  For every non-`hello` event, the dispatcher calls detectors'
`process_event` in registration order but stops at the first truthy result
and returns its alert type: the detectors that receive the event are exactly
the registration-order run of falsy detectors followed by the first truthy
one (all of them only when none handles the event). -/
theorem dispatch_stops_at_first_truthy {α : Type}
    (instances : List (String × (String → α → Bool))) (eventType : String) (e : α)
    (hne : eventType ≠ "hello") :
    (AlertManager.process_event instances eventType e).1 =
      firstTruthy eventType e instances ∧
    (AlertManager.process_event instances eventType e).2 =
      (instances.takeWhile (fun p => !p.2 eventType e)).map Prod.fst ++
        (match firstTruthy eventType e instances with
         | some ty => [ty]
         | none => []) := by
  unfold AlertManager.process_event
  rw [if_neg hne, processEventAux_spec]
  exact ⟨rfl, rfl⟩

/-- Witness for C2's amended dispatch law at the counterexample's input. -/
theorem dispatch_stops_at_first_truthy_witness :
    (AlertManager.process_event
        [("Channel-Watching", fun _ _ => true), ("VOD-Watching", fun _ _ => true)]
        "activities.set" ()).2 = ["Channel-Watching"] :=
  (dispatch_stops_at_first_truthy
    [("Channel-Watching", fun _ _ => true), ("VOD-Watching", fun _ _ => true)]
    "activities.set" () (by decide)).2

/-! ## Event Monitor line processing (`core/engine/event_monitor.py`) -/

structure MonitorStats where
  totalEvents : Nat
  alertEvents : Nat
  filteredEvents : Nat
  errorEvents : Nat
  deriving Repr, DecidableEq

/-- `EventMonitor._process_event_line`: `json.loads(line)` (the parser is a
parameter; `none` models `json.JSONDecodeError`), else — when the line is
SSE-framed `data:<json>` — `json.loads(line[5:].strip())`, whose failure is
swallowed by a bare `except: pass`.  The `except Exception` arm that does
`self.stats["error_events"] += 1` never sees a parse failure, because
`JSONDecodeError` is caught by the first, more specific arm.  Returns the
updated stats and the event passed on to `_process_event` (`none` = dropped;
the read loop continues either way). -/
def processEventLine {ε : Type} (parse : String → Option ε) (line : String)
    (stats : MonitorStats) : MonitorStats × Option ε :=
  match parse line with
  | some d => ({ stats with totalEvents := stats.totalEvents + 1 }, some d)
  | none =>
      if pyStartsWith line "data:" then
        match parse (pyStrip (line.drop 5)) with
        | some d => ({ stats with totalEvents := stats.totalEvents + 1 }, some d)
        | none => (stats, none)
      else (stats, none)

/-- C9 counterexample: a line that fails JSON parsing (and is not recoverable
as `data:<json>`) leaves the error counter untouched — it is not
incremented as the claim states — while the event is dropped. -/
theorem eventMonitor_error_counter_counterexample :
    (processEventLine (fun _ : String => (none : Option Unit)) "not json"
      ⟨7, 1, 2, 3⟩).1.errorEvents = 3 ∧
    (3 : Nat) ≠ 3 + 1 ∧
    (processEventLine (fun _ : String => (none : Option Unit)) "not json"
      ⟨7, 1, 2, 3⟩).2 = none := by
  exact ⟨rfl, by decide, rfl⟩

/-- C9 amended.  A line failing JSON parsing (and not recoverable via the
`data:` framing) is dropped without being dispatched to any detector and the
read loop continues, but the statistics — including the error counter — are
left unchanged: the error counter only counts non-parse exceptions. -/
theorem eventMonitor_parse_failure_dropped {ε : Type} (parse : String → Option ε)
    (line : String) (stats : MonitorStats)
    (h1 : parse line = none)
    (h2 : parse (pyStrip (line.drop 5)) = none) :
    processEventLine parse line stats = (stats, none) := by
  unfold processEventLine
  rw [h1]
  by_cases hs : pyStartsWith line "data:"
  · simp [hs, h2]
  · simp [hs]

/-- Witness for C9's amended statement at a concrete unparsable line. -/
theorem eventMonitor_parse_failure_dropped_witness :
    processEventLine (fun _ : String => (none : Option Unit)) "garbage" ⟨0, 0, 0, 0⟩ =
      (⟨0, 0, 0, 0⟩, none) :=
  eventMonitor_parse_failure_dropped (fun _ => none) "garbage" ⟨0, 0, 0, 0⟩ rfl rfl

/-! ## Disk-Space detector (`core/alerts/disk_space.py`)

`_check_disk_space` in its non-test-mode path; byte counts are naturals, the
percentage is exact rational division (the float arithmetic of the source at
these magnitudes).  The `/dvr` response is an input (`none` = fetch failed). -/

structure DiskConfig where
  percent_threshold : ℚ
  gb_threshold : ℚ
  deriving Repr

structure DiskInfo where
  free : Nat
  total : Nat
  used : Nat
  path : String
  deriving Repr

structure DiskState where
  previousFreeSpace : Option Nat
  previousPercentage : Option ℚ
  lastCheckLogTime : Nat
  lastSuccessfulCheck : Nat
  lastAlertTime : Nat
  alertSent : Bool
  deriving Repr

/-- `_check_disk_space`: returns the new state and whether an alert was sent
during this poll.  (`check_interval` 120 s, `cooldown_period` 3600 s,
`log_check_interval` 300 s as set in `__init__`.) -/
def checkDiskSpace (cfg : DiskConfig) (info : Option DiskInfo) (now : Nat)
    (st : DiskState) : DiskState × Bool :=
  match info with
  | none => (st, false)
  | some d =>
      if d.total = 0 then (st, false)
      else
        let free_percentage : ℚ := (d.free : ℚ) / (d.total : ℚ) * 100
        let significant_change : Bool :=
          match st.previousFreeSpace with
          | some prev =>
              let bytes_change := max d.free prev - min d.free prev
              let percent_change : ℚ :=
                match st.previousPercentage with
                | some pp => if pp ≠ 0 then |free_percentage - pp| else 0
                | none => 0
              decide (1073741824 < bytes_change) || decide ((1 : ℚ) < percent_change)
          | none => false
        let should_log : Bool := decide (st.lastCheckLogTime = 0) ||
          decide (st.lastCheckLogTime + 300 ≤ now) || significant_change
        let st1 : DiskState := { st with
          lastSuccessfulCheck := now,
          lastCheckLogTime := if should_log then now else st.lastCheckLogTime,
          previousFreeSpace := some d.free,
          previousPercentage := some free_percentage }
        let is_percent_low := free_percentage < cfg.percent_threshold
        let is_gb_low := (d.free : ℚ) < cfg.gb_threshold * 1024 * 1024 * 1024
        if is_percent_low ∨ is_gb_low then
          let in_cooldown := st1.alertSent = true ∧ now < st1.lastAlertTime + 3600
          if in_cooldown then (st1, false)
          else ({ st1 with alertSent := true, lastAlertTime := now }, true)
        else if st1.alertSent then ({ st1 with alertSent := false }, false)
        else (st1, false)

/-- C8.  For every successful poll with `total > 0`, an alert is sent iff a
threshold is breached (`free/total·100 < ds_threshold_percent` or
`free < ds_threshold_gb · 2³⁰`) and no alert is latched within the 3600 s
cooldown; and a poll with neither threshold breached resets the `alert_sent`
latch, so the next breach alerts immediately. -/
theorem diskSpace_alert_iff (cfg : DiskConfig) (d : DiskInfo) (now : Nat)
    (st : DiskState) (htot : 0 < d.total) :
    ((checkDiskSpace cfg (some d) now st).2 = true ↔
      (((d.free : ℚ) / (d.total : ℚ) * 100 < cfg.percent_threshold ∨
        (d.free : ℚ) < cfg.gb_threshold * 2 ^ 30) ∧
       ¬(st.alertSent = true ∧ now < st.lastAlertTime + 3600))) ∧
    (¬((d.free : ℚ) / (d.total : ℚ) * 100 < cfg.percent_threshold ∨
        (d.free : ℚ) < cfg.gb_threshold * 2 ^ 30) →
      (checkDiskSpace cfg (some d) now st).1.alertSent = false) := by
  have h230 : cfg.gb_threshold * 1024 * 1024 * 1024 = cfg.gb_threshold * 2 ^ 30 := by
    ring
  unfold checkDiskSpace
  dsimp only
  rw [if_neg (Nat.pos_iff_ne_zero.mp htot)]
  simp only [h230]
  constructor
  · by_cases hlow : (d.free : ℚ) / (d.total : ℚ) * 100 < cfg.percent_threshold ∨
        (d.free : ℚ) < cfg.gb_threshold * 2 ^ 30
    · rw [if_pos hlow]
      by_cases hcd : st.alertSent = true ∧ now < st.lastAlertTime + 3600
      · rw [if_pos hcd]
        simp [hlow, hcd]
      · rw [if_neg hcd]
        simp [hlow, hcd]
    · rw [if_neg hlow]
      by_cases hs : st.alertSent
      · simp [hs, hlow]
      · simp [hs, hlow]
  · intro hlow
    rw [if_neg hlow]
    by_cases hs : st.alertSent
    · simp [hs]
    · simp [hs]

/-- Witness for C8 at the spec's boundary example: thresholds {percent 10,
gb 50}, free 60 GiB of 1000 GiB (6 % free) on an unlatched state — the alert
fires. -/
theorem diskSpace_alert_iff_witness :
    (checkDiskSpace ⟨10, 50⟩
      (some ⟨64424509440, 1073741824000, 1009317314560, "/shares/DVR"⟩) 5000
      ⟨none, none, 0, 0, 0, false⟩).2 = true :=
  (diskSpace_alert_iff ⟨10, 50⟩
    ⟨64424509440, 1073741824000, 1009317314560, "/shares/DVR"⟩ 5000
    ⟨none, none, 0, 0, 0, false⟩ (by norm_num)).1.mpr
    ⟨Or.inl (by norm_num), by simp⟩

/-! ## Activity Recorder (`core/helpers/activity_recorder.py`)

Module globals: `NOTIFICATION_HISTORY` (dedup key → timestamp, 5-second
`COOLDOWN_PERIOD`) and the `activity_history.json` array (newest first,
capped at 500).  `uuid4()` and `datetime.now().isoformat()` are inputs;
`save_history` is modelled as succeeding. -/

structure ActivityRecord where
  id : String
  atype : String
  title : String
  message : String
  timestampIso : String
  icon : String
  deriving Repr, DecidableEq

structure ActivityState where
  notificationHistory : List (String × Nat)
  historyFile : List ActivityRecord
  deriving Repr, DecidableEq

/-- `get_icon_for_activity_type`. -/
def get_icon_for_activity_type (t : String) : String :=
  if t = "watching_channel" then "tv"
  else if t = "watching_vod" then "play"
  else if t = "recording_event" then "video"
  else if t = "disk_alert" then "alert-circle"
  else if t = "disk_status" then "alert-circle"
  else if t = "system" then "cpu"
  else if t = "test_event" then "bell"
  else "bell"

/-- The dedup key of `record_activity`:
`<type>-<channel>-<device-identifier>` (or without the channel part), where
the device identifier falls back from name to IP to `"unknown"`. -/
def activityTrackingKey (activityType : String)
    (channelName deviceName deviceIp : Option String) : String :=
  let device_identifier :=
    if pyTruthyOpt deviceName then deviceName.getD ""
    else if pyTruthyOpt deviceIp then deviceIp.getD ""
    else "unknown"
  if pyTruthyOpt channelName then
    activityType ++ "-" ++ channelName.getD "" ++ "-" ++ device_identifier
  else activityType ++ "-" ++ device_identifier

/-- `should_record_activity(tracking_key)`: inside the 5-second window the
call is refused and the stored timestamp is NOT refreshed; otherwise the key
is stamped `now`. -/
def should_record_activity (hist : List (String × Nat)) (key : String) (now : Nat) :
    Bool × List (String × Nat) :=
  match alookup hist key with
  | some last => if now < last + 5 then (false, hist) else (true, ainsert hist key now)
  | none => (true, ainsert hist key now)

/-- `cleanup_notification_history()`: drop entries older than 3600 s. -/
def cleanup_notification_history (hist : List (String × Nat)) (now : Nat) :
    List (String × Nat) :=
  ((hist.filter (fun p => 3600 + p.2 < now)).map Prod.fst).foldl aerase hist

/-- `record_activity(activity_type, title, message, channel_name, device_name,
device_ip)`. -/
def record_activity (activityType title message : String)
    (channelName deviceName deviceIp : Option String) (uuid iso : String) (now : Nat)
    (st : ActivityState) : Bool × ActivityState :=
  let tracking_key := activityTrackingKey activityType channelName deviceName deviceIp
  let hist0 :=
    if 100 < st.notificationHistory.length then
      cleanup_notification_history st.notificationHistory now
    else st.notificationHistory
  let sr := should_record_activity hist0 tracking_key now
  if !sr.1 then (true, { st with notificationHistory := sr.2 })
  else
    let new_activity : ActivityRecord :=
      ⟨uuid, activityType, title, message, iso, get_icon_for_activity_type activityType⟩
    let history1 := new_activity :: st.historyFile
    let history2 := if 500 < history1.length then history1.take 500 else history1
    (true, { notificationHistory := sr.2, historyFile := history2 })

theorem alookup_eq_of_mem_nodup {α : Type} {l : List (String × α)} {k : String} {v : α}
    (hnd : (akeys l).Nodup) (hm : (k, v) ∈ l) : alookup l k = some v := by
  induction l with
  | nil => simp at hm
  | cons hd tl ih =>
      obtain ⟨k₀, v₀⟩ := hd
      simp only [akeys, List.map_cons, List.nodup_cons] at hnd
      rcases List.mem_cons.mp hm with he | hm'
      · injection he with h1 h2
        subst h1; subst h2
        simp [alookup]
      · by_cases h₀ : k₀ = k
        · subst h₀
          exact absurd (by simpa [akeys] using List.mem_map_of_mem Prod.fst hm') hnd.1
        · simp only [alookup, if_neg h₀]
          exact ih hnd.2 hm'

theorem alookup_foldl_aerase_ne {α : Type} (ids : List String) (l : List (String × α))
    (k : String) (h : k ∉ ids) : alookup (ids.foldl aerase l) k = alookup l k := by
  induction ids generalizing l with
  | nil => rfl
  | cons i is ih =>
      simp only [List.mem_cons, not_or] at h
      rw [List.foldl_cons, ih _ h.2, alookup_aerase_ne _ _ _ (fun he => h.1 he.symm)]

theorem cleanup_preserves_fresh (hist : List (String × Nat)) (key : String)
    (t₀ now : Nat) (hnd : (akeys hist).Nodup) (hl : alookup hist key = some t₀)
    (hfresh : now < t₀ + 5) :
    alookup (cleanup_notification_history hist now) key = some t₀ := by
  unfold cleanup_notification_history
  rw [alookup_foldl_aerase_ne]
  · exact hl
  · intro hmem
    simp only [List.mem_map, List.mem_filter] at hmem
    obtain ⟨⟨k', ts'⟩, ⟨hmem', hold⟩, hk⟩ := hmem
    subst hk
    rw [alookup_eq_of_mem_nodup hnd hmem'] at hl
    injection hl with hts
    subst hts
    simp only [decide_eq_true_eq] at hold
    omega

/-- C10.  A `record_activity` call whose dedup key was stamped less than
5 seconds ago (by an earlier call) leaves `activity_history.json` completely
unchanged — no entry appended, no truncation — yet still returns `True`,
making the suppressed duplicate indistinguishable from a successful write at
the caller's interface.  (`Nodup` is the representation invariant of the
dict-backed history.) -/
theorem record_activity_duplicate_frame (activityType title message : String)
    (channelName deviceName deviceIp : Option String) (uuid iso : String)
    (now t₀ : Nat) (st : ActivityState)
    (hnd : (akeys st.notificationHistory).Nodup)
    (hkey : alookup st.notificationHistory
      (activityTrackingKey activityType channelName deviceName deviceIp) = some t₀)
    (hwin : now < t₀ + 5) :
    (record_activity activityType title message channelName deviceName deviceIp
        uuid iso now st).1 = true ∧
    (record_activity activityType title message channelName deviceName deviceIp
        uuid iso now st).2.historyFile = st.historyFile := by
  unfold record_activity
  have hkey0 : alookup
      (if 100 < st.notificationHistory.length then
        cleanup_notification_history st.notificationHistory now
       else st.notificationHistory)
      (activityTrackingKey activityType channelName deviceName deviceIp) = some t₀ := by
    split
    · exact cleanup_preserves_fresh _ _ _ _ hnd hkey hwin
    · exact hkey
  have hsr : should_record_activity
      (if 100 < st.notificationHistory.length then
        cleanup_notification_history st.notificationHistory now
       else st.notificationHistory)
      (activityTrackingKey activityType channelName deviceName deviceIp) now =
      (false,
       if 100 < st.notificationHistory.length then
         cleanup_notification_history st.notificationHistory now
       else st.notificationHistory) := by
    unfold should_record_activity
    simp only [hkey0]
    rw [if_pos hwin]
  dsimp only
  rw [hsr]
  exact ⟨rfl, rfl⟩

/-- Witness for C10: a duplicate `watching_channel` record 2 seconds after the
first leaves the history file untouched and reports success. -/
theorem record_activity_duplicate_frame_witness :
    (record_activity "watching_channel" "Watching Channel" "Watching ABC on LivingRoom"
        (some "ABC") (some "LivingRoom") (some "192.168.1.10") "uuid-2" "iso-2" 102
        ⟨[("watching_channel-ABC-LivingRoom", 100)],
         [⟨"uuid-1", "watching_channel", "Watching Channel",
           "Watching ABC on LivingRoom", "iso-1", "tv"⟩]⟩).1 = true ∧
    (record_activity "watching_channel" "Watching Channel" "Watching ABC on LivingRoom"
        (some "ABC") (some "LivingRoom") (some "192.168.1.10") "uuid-2" "iso-2" 102
        ⟨[("watching_channel-ABC-LivingRoom", 100)],
         [⟨"uuid-1", "watching_channel", "Watching Channel",
           "Watching ABC on LivingRoom", "iso-1", "tv"⟩]⟩).2.historyFile =
      [⟨"uuid-1", "watching_channel", "Watching Channel",
        "Watching ABC on LivingRoom", "iso-1", "tv"⟩] :=
  record_activity_duplicate_frame "watching_channel" "Watching Channel"
    "Watching ABC on LivingRoom" (some "ABC") (some "LivingRoom") (some "192.168.1.10")
    "uuid-2" "iso-2" 102 100
    ⟨[("watching_channel-ABC-LivingRoom", 100)],
     [⟨"uuid-1", "watching_channel", "Watching Channel",
       "Watching ABC on LivingRoom", "iso-1", "tv"⟩]⟩
    (by decide) (by decide) (by decide)

end ChannelWatch
